import Mathlib

/-!
# Rigs of Rods: GfxActor snapshot, debug views, GUIManager and GameScript

A shallow embedding of `source/main/gfx/GfxActor.h`,
`source/main/gui/GUIManager.{h,cpp}` and `source/main/scripting/GameScript.cpp`.

Conventions of the embedding:

* C `int` fields are `Int`; C `float` fields are `CFloat` (rationals): the only
  float values the embedding ever writes are literals such as `0`, which are exact.
* `bool` and one-bit `bool` bitfields are `Bool`.
* `std::vector<T>` and the `unique_ptr` node array are `List T`.
* Enumerations whose declaration is in a header outside the sources
  (`Autopilot`, `DiffType`, `ActorState`) are represented by their underlying
  integer value, and the named constants used by `GfxActor.h` are parameters
  (`ExternConsts`).
-/

namespace RoR

/-- C `float` values. -/
abbrev CFloat := Rat

/-- Value of `Ogre::Vector3`. -/
structure Vector3 where
  x : CFloat
  y : CFloat
  z : CFloat
deriving DecidableEq, Repr

/-- Constant `Ogre::Vector3::ZERO`. -/
def Vector3.ZERO : Vector3 := { x := 0, y := 0, z := 0 }

/-- Value of `Ogre::AxisAlignedBox`: the null box, a finite box, or the infinite box. -/
inductive AxisAlignedBox where
  | BOX_NULL
  | finite (minimum maximum : Vector3)
  | BOX_INFINITE
deriving DecidableEq, Repr

/-- Named constants that `GfxActor.h` takes from headers outside the sources
(`AutoPilot.h`, `Differentials.h`, `SimData.h`), by underlying integer value. -/
structure ExternConsts where
  HEADING_NONE : Int
  ALT_NONE : Int
  SPLIT_DIFF : Int
  LOCAL_SLEEPING : Int
deriving DecidableEq, Repr

namespace GfxActor

/-- Enumeration `GfxActor::VideoCamState`. -/
inductive VideoCamState where
  | VCSTATE_INVALID
  | VCSTATE_DISABLED
  | VCSTATE_ENABLED_OFFLINE
  | VCSTATE_ENABLED_ONLINE
deriving DecidableEq, Repr

/-- Enumeration `GfxActor::DebugViewType`, constructors in declaration order. -/
inductive DebugViewType where
  | DEBUGVIEW_NONE
  | DEBUGVIEW_SKELETON
  | DEBUGVIEW_NODES
  | DEBUGVIEW_BEAMS
  | DEBUGVIEW_WHEELS
  | DEBUGVIEW_SHOCKS
  | DEBUGVIEW_ROTATORS
  | DEBUGVIEW_SLIDENODES
  | DEBUGVIEW_SUBMESH
deriving DecidableEq, Repr

namespace DebugViewType

/-- Underlying value of an enumerator: no enumerator has an explicit value, so the
first is 0 and each next one is one more than the previous. -/
def ordinal : DebugViewType → Nat
  | DEBUGVIEW_NONE => 0
  | DEBUGVIEW_SKELETON => 1
  | DEBUGVIEW_NODES => 2
  | DEBUGVIEW_BEAMS => 3
  | DEBUGVIEW_WHEELS => 4
  | DEBUGVIEW_SHOCKS => 5
  | DEBUGVIEW_ROTATORS => 6
  | DEBUGVIEW_SLIDENODES => 7
  | DEBUGVIEW_SUBMESH => 8

/-- The enumerators, in declaration order. -/
def enumerators : List DebugViewType :=
  [DEBUGVIEW_NONE, DEBUGVIEW_SKELETON, DEBUGVIEW_NODES, DEBUGVIEW_BEAMS, DEBUGVIEW_WHEELS,
   DEBUGVIEW_SHOCKS, DEBUGVIEW_ROTATORS, DEBUGVIEW_SLIDENODES, DEBUGVIEW_SUBMESH]

/-- Conversion of an underlying value to the enumerator that has it
(`static_cast<DebugViewType>(n)` for a value in range). -/
def ofOrdinal (n : Nat) : Option DebugViewType :=
  enumerators.find? (fun d => d.ordinal == n)

/-- The next enumerator in declaration order, wrapping from the last to the first. -/
def nextInOrder (d : DebugViewType) : Option DebugViewType :=
  ofOrdinal ((d.ordinal + 1) % enumerators.length)

end DebugViewType

namespace SimBuffer

/-- Struct `SimBuffer::NodeSB`. -/
structure NodeSB where
  AbsPosition : Vector3
  nd_has_contact : Bool
  nd_is_wet : Bool
deriving DecidableEq, Repr

/-- Struct `SimBuffer::ScrewPropSB`. -/
structure ScrewPropSB where
  simbuf_sp_rudder : CFloat
  simbuf_sp_throttle : CFloat
deriving DecidableEq, Repr

/-- Struct `SimBuffer::CommandKeySB`. -/
structure CommandKeySB where
  simbuf_cmd_value : CFloat
deriving DecidableEq, Repr

/-- Struct `SimBuffer::AeroEngineSB`. -/
structure AeroEngineSB where
  simbuf_ae_rpm : CFloat
  simbuf_ae_rpmpc : CFloat
  simbuf_ae_throttle : CFloat
  simbuf_tp_aetorque : CFloat
  simbuf_tp_aepitch : CFloat
  simbuf_tj_ab_thrust : CFloat
  simbuf_tj_exhaust_velo : CFloat
  simbuf_ae_turboprop : Bool
  simbuf_ae_ignition : Bool
  simbuf_ae_failed : Bool
  simbuf_tj_afterburn : Bool
deriving DecidableEq, Repr

/-- Struct `SimBuffer::AirbrakeSB`. -/
structure AirbrakeSB where
  simbuf_ab_ratio : CFloat
deriving DecidableEq, Repr

end SimBuffer

/-- Struct `GfxActor::SimBuffer` (buffered simulation data), fields in declaration order. -/
structure SimBuffer where
  simbuf_nodes : List SimBuffer.NodeSB
  simbuf_pos : Vector3
  simbuf_node0_velo : Vector3
  simbuf_rotation : CFloat
  simbuf_tyre_pressure : CFloat
  simbuf_tyre_pressurizing : Bool
  simbuf_aabb : AxisAlignedBox
  simbuf_net_username : String
  simbuf_net_colornum : Int
  simbuf_gear : Int
  simbuf_autoshift : Int
  simbuf_wheel_speed : CFloat
  simbuf_engine_rpm : CFloat
  simbuf_engine_crankfactor : CFloat
  simbuf_engine_turbo_psi : CFloat
  simbuf_engine_accel : CFloat
  simbuf_engine_torque : CFloat
  simbuf_inputshaft_rpm : CFloat
  simbuf_drive_ratio : CFloat
  simbuf_beaconlight_active : Bool
  simbuf_smoke_enabled : Bool
  simbuf_hydro_dir_state : CFloat
  simbuf_hydro_aileron_state : CFloat
  simbuf_hydro_elevator_state : CFloat
  simbuf_hydro_aero_rudder_state : CFloat
  simbuf_cur_cinecam : Int
  simbuf_screwprops : List SimBuffer.ScrewPropSB
  simbuf_commandkey : List SimBuffer.CommandKeySB
  simbuf_aeroengines : List SimBuffer.AeroEngineSB
  simbuf_airbrakes : List SimBuffer.AirbrakeSB
  simbuf_diff_type : Int
  simbuf_parking_brake : Bool
  simbuf_brake : CFloat
  simbuf_clutch : CFloat
  simbuf_aero_flap_state : Int
  simbuf_airbrake_state : Int
  simbuf_wing4_aoa : CFloat
  simbuf_headlight_on : Bool
  simbuf_direction : Vector3
  simbuf_top_speed : CFloat
  simbuf_actor_state : Int
  simbuf_physics_paused : Bool
  simbuf_ap_heading_mode : Int
  simbuf_ap_heading_value : Int
  simbuf_ap_alt_mode : Int
  simbuf_ap_alt_value : Int
  simbuf_ap_ias_mode : Bool
  simbuf_ap_ias_value : Int
  simbuf_ap_gpws_mode : Bool
  simbuf_ap_ils_available : Bool
  simbuf_ap_ils_vdev : CFloat
  simbuf_ap_ils_hdev : CFloat
  simbuf_ap_vs_value : Int

namespace SimBuffer

/-- Default-initialisation of a `SimBuffer` (the implicit default constructor):
every member with a default member initializer gets that value; the class-type
members without one (`unique_ptr`, `std::string`, the four `std::vector`s) are
default-constructed (null / empty); `simbuf_net_colornum`, an `int` declared
without initializer, is left with whatever its storage held, here `indeterminate`. -/
def defaultInit (k : ExternConsts) (indeterminate : Int) : SimBuffer :=
  { simbuf_nodes := []
    simbuf_pos := Vector3.ZERO
    simbuf_node0_velo := Vector3.ZERO
    simbuf_rotation := 0
    simbuf_tyre_pressure := 0
    simbuf_tyre_pressurizing := false
    simbuf_aabb := AxisAlignedBox.BOX_NULL
    simbuf_net_username := ""
    simbuf_net_colornum := indeterminate
    simbuf_gear := 0
    simbuf_autoshift := 0
    simbuf_wheel_speed := 0
    simbuf_engine_rpm := 0
    simbuf_engine_crankfactor := 0
    simbuf_engine_turbo_psi := 0
    simbuf_engine_accel := 0
    simbuf_engine_torque := 0
    simbuf_inputshaft_rpm := 0
    simbuf_drive_ratio := 0
    simbuf_beaconlight_active := false
    simbuf_smoke_enabled := false
    simbuf_hydro_dir_state := 0
    simbuf_hydro_aileron_state := 0
    simbuf_hydro_elevator_state := 0
    simbuf_hydro_aero_rudder_state := 0
    simbuf_cur_cinecam := 0
    simbuf_screwprops := []
    simbuf_commandkey := []
    simbuf_aeroengines := []
    simbuf_airbrakes := []
    simbuf_diff_type := k.SPLIT_DIFF
    simbuf_parking_brake := false
    simbuf_brake := 0
    simbuf_clutch := 0
    simbuf_aero_flap_state := 0
    simbuf_airbrake_state := 0
    simbuf_wing4_aoa := 0
    simbuf_headlight_on := false
    simbuf_direction := Vector3.ZERO
    simbuf_top_speed := 0
    simbuf_actor_state := k.LOCAL_SLEEPING
    simbuf_physics_paused := false
    simbuf_ap_heading_mode := k.HEADING_NONE
    simbuf_ap_heading_value := 0
    simbuf_ap_alt_mode := k.ALT_NONE
    simbuf_ap_alt_value := 1000
    simbuf_ap_ias_mode := false
    simbuf_ap_ias_value := 150
    simbuf_ap_gpws_mode := false
    simbuf_ap_ils_available := false
    simbuf_ap_ils_vdev := 0
    simbuf_ap_ils_hdev := 0
    simbuf_ap_vs_value := 0 }

/-- Sizes of the four per-subsystem arrays, in the order screw props, command keys,
aero engines, airbrakes. -/
def arrayLengths (b : SimBuffer) : Nat × Nat × Nat × Nat :=
  (b.simbuf_screwprops.length, b.simbuf_commandkey.length,
   b.simbuf_aeroengines.length, b.simbuf_airbrakes.length)

end SimBuffer

end GfxActor

/-- Class `GfxActor`: the data members that the member functions defined in
`GfxActor.h` read or write, and the per-frame animation memory. Pointers to scene
objects are handles (`Nat`). -/
structure GfxActor where
  m_actor : Nat
  m_custom_resource_group : String
  m_vidcam_state : GfxActor.VideoCamState
  m_debug_view : GfxActor.DebugViewType
  m_last_debug_view : GfxActor.DebugViewType
  m_flexbodies : List Nat
  m_driverseat_prop_index : Int
  m_beaconlight_active : Bool
  m_prop_anim_crankfactor_prev : CFloat
  m_prop_anim_shift_timer : CFloat
  m_prop_anim_prev_gear : Int
  m_initialized : Bool
  m_simbuf : GfxActor.SimBuffer

namespace GfxActor

open DebugViewType

/-- Member `AddFlexbody`: `m_flexbodies.push_back(fb)`. -/
def AddFlexbody (g : GfxActor) (fb : Nat) : GfxActor :=
  { g with m_flexbodies := g.m_flexbodies ++ [fb] }

/-- Member `IsActorInitialized`. -/
def IsActorInitialized (g : GfxActor) : Bool := g.m_initialized

/-- Member `InitializeActor`: `m_initialized = true`. -/
def InitializeActor (g : GfxActor) : GfxActor := { g with m_initialized := true }

/-- Member `GetNumFlexbodies`. -/
def GetNumFlexbodies (g : GfxActor) : Int := (g.m_flexbodies.length : Int)

/-- Member `GetVideoCamState`. -/
def GetVideoCamState (g : GfxActor) : VideoCamState := g.m_vidcam_state

/-- Member `GetDebugView`. -/
def GetDebugView (g : GfxActor) : DebugViewType := g.m_debug_view

/-- Member `GetSimDataBuffer`: hands out `m_simbuf`; the object is not modified. -/
def GetSimDataBuffer (g : GfxActor) : SimBuffer × GfxActor := (g.m_simbuf, g)

/-- Member `GetSimNodeBuffer`: hands out `m_simbuf.simbuf_nodes`; the object is not modified. -/
def GetSimNodeBuffer (g : GfxActor) : List SimBuffer.NodeSB × GfxActor :=
  (g.m_simbuf.simbuf_nodes, g)

/-- Member `HasDriverSeatProp`. -/
def HasDriverSeatProp (g : GfxActor) : Bool := g.m_driverseat_prop_index != -1

/-- Modelled from the spec: the body of `GfxActor::CycleDebugViews` is in `GfxActor.cpp`,
which is not part of the sources. This is the successor it applies: "the next state
in enumeration order wrapping to NONE". -/
def DebugViewType.next : DebugViewType → DebugViewType
  | DEBUGVIEW_NONE => DEBUGVIEW_SKELETON
  | DEBUGVIEW_SKELETON => DEBUGVIEW_NODES
  | DEBUGVIEW_NODES => DEBUGVIEW_BEAMS
  | DEBUGVIEW_BEAMS => DEBUGVIEW_WHEELS
  | DEBUGVIEW_WHEELS => DEBUGVIEW_SHOCKS
  | DEBUGVIEW_SHOCKS => DEBUGVIEW_ROTATORS
  | DEBUGVIEW_ROTATORS => DEBUGVIEW_SLIDENODES
  | DEBUGVIEW_SLIDENODES => DEBUGVIEW_SUBMESH
  | DEBUGVIEW_SUBMESH => DEBUGVIEW_NONE

/-- Modelled from the spec: the body of `GfxActor::SetDebugView` is in `GfxActor.cpp`,
which is not part of the sources. The view becomes `dv`; a non-NONE view that is
left is remembered in `m_last_debug_view` ("remembering the previously active
state across a transition to NONE"). -/
def SetDebugView (g : GfxActor) (dv : DebugViewType) : GfxActor :=
  { g with
    m_last_debug_view :=
      if g.m_debug_view = DEBUGVIEW_NONE then g.m_last_debug_view else g.m_debug_view
    m_debug_view := dv }

/-- Modelled from the spec: the body of `GfxActor::CycleDebugViews` is in
`GfxActor.cpp`, which is not part of the sources. "cycle" transitions to the next
state in enumeration order wrapping to NONE. -/
def CycleDebugViews (g : GfxActor) : GfxActor :=
  SetDebugView g g.m_debug_view.next

/-- Modelled from the spec: the body of `GfxActor::ToggleDebugView` is in
`GfxActor.cpp`, which is not part of the sources. "toggle" flips between NONE and
the last non-NONE state: from a non-NONE view it goes to NONE and remembers the
view in `m_last_debug_view`; from NONE it goes to the remembered view. -/
def ToggleDebugView (g : GfxActor) : GfxActor :=
  if g.m_debug_view = DEBUGVIEW_NONE then
    { g with m_debug_view := g.m_last_debug_view }
  else
    { g with m_last_debug_view := g.m_debug_view, m_debug_view := DEBUGVIEW_NONE }

end GfxActor

/-- Modelled from the spec: the simulated actor (`Actor.h`) is not part of the
sources. The publish operation "overwrites every tracked field from authoritative
simulation state", so the actor is represented by the authoritative value of each
tracked field at the time of the call; its per-subsystem arrays have the actor's
component counts as lengths. -/
structure Actor where
  ar_tracked : GfxActor.SimBuffer

namespace GfxActor

/-- Modelled from the spec: the loops of `GfxActor::UpdateSimDataBuffer` are in
`GfxActor.cpp`, which is not part of the sources. "publish overwrites in place by
index; no insertion/removal after spawn": element `i` of the buffer is replaced by
element `i` of the source; a source whose length differs from the buffer's is a
contract violation (`none`). -/
def overwriteInPlace {α : Type} : List α → List α → Option (List α)
  | [], [] => some []
  | _ :: bs, v :: vs => (overwriteInPlace bs vs).map (fun r => v :: r)
  | [], _ :: _ => none
  | _ :: _, [] => none

/-- The snapshot arrays and the actor's arrays have the same lengths (the arrays
are "sized once at construction to match the actor's component counts"). -/
def sizedFor (g : GfxActor) (a : Actor) : Prop :=
  g.m_simbuf.simbuf_nodes.length = a.ar_tracked.simbuf_nodes.length
  ∧ g.m_simbuf.simbuf_screwprops.length = a.ar_tracked.simbuf_screwprops.length
  ∧ g.m_simbuf.simbuf_commandkey.length = a.ar_tracked.simbuf_commandkey.length
  ∧ g.m_simbuf.simbuf_aeroengines.length = a.ar_tracked.simbuf_aeroengines.length
  ∧ g.m_simbuf.simbuf_airbrakes.length = a.ar_tracked.simbuf_airbrakes.length

instance (g : GfxActor) (a : Actor) : Decidable (sizedFor g a) := by
  unfold sizedFor; infer_instance

/-- Modelled from the spec: the body of `GfxActor::UpdateSimDataBuffer` (publish) is
in `GfxActor.cpp`, which is not part of the sources. One pass that overwrites every
tracked field of `m_simbuf` from the authoritative state; the arrays are
overwritten in place by index. Nothing else of the `GfxActor` is written. -/
def UpdateSimDataBuffer (g : GfxActor) (a : Actor) : Option GfxActor := do
  let src := a.ar_tracked
  let nodes ← overwriteInPlace g.m_simbuf.simbuf_nodes src.simbuf_nodes
  let screwprops ← overwriteInPlace g.m_simbuf.simbuf_screwprops src.simbuf_screwprops
  let commandkey ← overwriteInPlace g.m_simbuf.simbuf_commandkey src.simbuf_commandkey
  let aeroengines ← overwriteInPlace g.m_simbuf.simbuf_aeroengines src.simbuf_aeroengines
  let airbrakes ← overwriteInPlace g.m_simbuf.simbuf_airbrakes src.simbuf_airbrakes
  pure { g with m_simbuf :=
    { simbuf_nodes := nodes
      simbuf_pos := src.simbuf_pos
      simbuf_node0_velo := src.simbuf_node0_velo
      simbuf_rotation := src.simbuf_rotation
      simbuf_tyre_pressure := src.simbuf_tyre_pressure
      simbuf_tyre_pressurizing := src.simbuf_tyre_pressurizing
      simbuf_aabb := src.simbuf_aabb
      simbuf_net_username := src.simbuf_net_username
      simbuf_net_colornum := src.simbuf_net_colornum
      simbuf_gear := src.simbuf_gear
      simbuf_autoshift := src.simbuf_autoshift
      simbuf_wheel_speed := src.simbuf_wheel_speed
      simbuf_engine_rpm := src.simbuf_engine_rpm
      simbuf_engine_crankfactor := src.simbuf_engine_crankfactor
      simbuf_engine_turbo_psi := src.simbuf_engine_turbo_psi
      simbuf_engine_accel := src.simbuf_engine_accel
      simbuf_engine_torque := src.simbuf_engine_torque
      simbuf_inputshaft_rpm := src.simbuf_inputshaft_rpm
      simbuf_drive_ratio := src.simbuf_drive_ratio
      simbuf_beaconlight_active := src.simbuf_beaconlight_active
      simbuf_smoke_enabled := src.simbuf_smoke_enabled
      simbuf_hydro_dir_state := src.simbuf_hydro_dir_state
      simbuf_hydro_aileron_state := src.simbuf_hydro_aileron_state
      simbuf_hydro_elevator_state := src.simbuf_hydro_elevator_state
      simbuf_hydro_aero_rudder_state := src.simbuf_hydro_aero_rudder_state
      simbuf_cur_cinecam := src.simbuf_cur_cinecam
      simbuf_screwprops := screwprops
      simbuf_commandkey := commandkey
      simbuf_aeroengines := aeroengines
      simbuf_airbrakes := airbrakes
      simbuf_diff_type := src.simbuf_diff_type
      simbuf_parking_brake := src.simbuf_parking_brake
      simbuf_brake := src.simbuf_brake
      simbuf_clutch := src.simbuf_clutch
      simbuf_aero_flap_state := src.simbuf_aero_flap_state
      simbuf_airbrake_state := src.simbuf_airbrake_state
      simbuf_wing4_aoa := src.simbuf_wing4_aoa
      simbuf_headlight_on := src.simbuf_headlight_on
      simbuf_direction := src.simbuf_direction
      simbuf_top_speed := src.simbuf_top_speed
      simbuf_actor_state := src.simbuf_actor_state
      simbuf_physics_paused := src.simbuf_physics_paused
      simbuf_ap_heading_mode := src.simbuf_ap_heading_mode
      simbuf_ap_heading_value := src.simbuf_ap_heading_value
      simbuf_ap_alt_mode := src.simbuf_ap_alt_mode
      simbuf_ap_alt_value := src.simbuf_ap_alt_value
      simbuf_ap_ias_mode := src.simbuf_ap_ias_mode
      simbuf_ap_ias_value := src.simbuf_ap_ias_value
      simbuf_ap_gpws_mode := src.simbuf_ap_gpws_mode
      simbuf_ap_ils_available := src.simbuf_ap_ils_available
      simbuf_ap_ils_vdev := src.simbuf_ap_ils_vdev
      simbuf_ap_ils_hdev := src.simbuf_ap_ils_hdev
      simbuf_ap_vs_value := src.simbuf_ap_vs_value } }

/-- The operations on a `GfxActor` covered by the embedding: the member functions
with a body in `GfxActor.h` that touch the modelled members, and the modelled
publish and debug-view operations. -/
inductive Op where
  | UpdateSimDataBuffer (a : Actor)
  | GetSimDataBuffer
  | GetSimNodeBuffer
  | AddFlexbody (fb : Nat)
  | InitializeActor
  | SetDebugView (dv : DebugViewType)
  | ToggleDebugView
  | CycleDebugViews

/-- Effect of one operation on the object (`none`: contract violation in publish). -/
def Op.apply (g : GfxActor) : Op → Option GfxActor
  | Op.UpdateSimDataBuffer a => GfxActor.UpdateSimDataBuffer g a
  | Op.GetSimDataBuffer => some (GfxActor.GetSimDataBuffer g).2
  | Op.GetSimNodeBuffer => some (GfxActor.GetSimNodeBuffer g).2
  | Op.AddFlexbody fb => some (GfxActor.AddFlexbody g fb)
  | Op.InitializeActor => some (GfxActor.InitializeActor g)
  | Op.SetDebugView dv => some (GfxActor.SetDebugView g dv)
  | Op.ToggleDebugView => some (GfxActor.ToggleDebugView g)
  | Op.CycleDebugViews => some (GfxActor.CycleDebugViews g)

/-- Effect of a finite sequence of operations, applied left to right. -/
def run (g : GfxActor) : List Op → Option GfxActor
  | [] => some g
  | op :: ops => (Op.apply g op).bind (fun g1 => run g1 ops)

end GfxActor

namespace GfxActor

/-- The member functions whose body is in `GfxActor.h` and that read or write the
modelled members. -/
inductive InlineOp where
  | AddFlexbody (fb : Nat)
  | IsActorInitialized
  | InitializeActor
  | GetNumFlexbodies
  | GetVideoCamState
  | GetDebugView
  | GetSimDataBuffer
  | GetSimNodeBuffer
  | HasDriverSeatProp
deriving DecidableEq, Repr

/-- The object after one call of such a member function (the getters are `const` or
only hand out a member). -/
def InlineOp.apply (g : GfxActor) : InlineOp → GfxActor
  | InlineOp.AddFlexbody fb => GfxActor.AddFlexbody g fb
  | InlineOp.InitializeActor => GfxActor.InitializeActor g
  | InlineOp.GetSimDataBuffer => (GfxActor.GetSimDataBuffer g).2
  | InlineOp.GetSimNodeBuffer => (GfxActor.GetSimNodeBuffer g).2
  | InlineOp.IsActorInitialized => g
  | InlineOp.GetNumFlexbodies => g
  | InlineOp.GetVideoCamState => g
  | InlineOp.GetDebugView => g
  | InlineOp.HasDriverSeatProp => g

/-- Whether the call is `InitializeActor`. -/
def InlineOp.isInitializeActor : InlineOp → Bool
  | InlineOp.InitializeActor => true
  | _ => false

/-- Whether the operation is `InitializeActor`. -/
def Op.isInitializeActor : Op → Bool
  | Op.InitializeActor => true
  | _ => false

end GfxActor

/-! ## Sample states -/

namespace GfxActor

/-- A sample `GfxActor` with the debug view at NONE. -/
def sampleGfxActor (k : ExternConsts) : GfxActor :=
  { m_actor := 0
    m_custom_resource_group := ""
    m_vidcam_state := VideoCamState.VCSTATE_DISABLED
    m_debug_view := DebugViewType.DEBUGVIEW_NONE
    m_last_debug_view := DebugViewType.DEBUGVIEW_SKELETON
    m_flexbodies := []
    m_driverseat_prop_index := -1
    m_beaconlight_active := false
    m_prop_anim_crankfactor_prev := 0
    m_prop_anim_shift_timer := 0
    m_prop_anim_prev_gear := 0
    m_initialized := false
    m_simbuf := SimBuffer.defaultInit k 0 }

/-- A `GfxActor` as it is after spawning a vehicle with two nodes, one screw prop,
one command key, one aero engine and one airbrake: arrays sized, values defaulted. -/
def spawnedGfxActor (k : ExternConsts) : GfxActor :=
  { sampleGfxActor k with
    m_simbuf :=
      { SimBuffer.defaultInit k 0 with
        simbuf_nodes := [⟨Vector3.ZERO, false, false⟩, ⟨Vector3.ZERO, false, false⟩]
        simbuf_screwprops := [⟨0, 0⟩]
        simbuf_commandkey := [⟨0⟩]
        simbuf_aeroengines := [⟨0, 0, 0, 0, 0, 0, 0, false, false, false, false⟩]
        simbuf_airbrakes := [⟨0⟩] } }

/-- An authoritative state with the same component counts as `spawnedGfxActor`. -/
def movingActor (k : ExternConsts) : Actor :=
  { ar_tracked :=
      { SimBuffer.defaultInit k 0 with
        simbuf_nodes := [⟨⟨1, 2, 3⟩, true, false⟩, ⟨⟨4, 5, 6⟩, false, true⟩]
        simbuf_gear := 2
        simbuf_engine_rpm := 1500
        simbuf_screwprops := [⟨1, 1⟩]
        simbuf_commandkey := [⟨1⟩]
        simbuf_aeroengines := [⟨900, 1, 1, 0, 0, 0, 0, true, true, false, false⟩]
        simbuf_airbrakes := [⟨1⟩] } }

end GfxActor

/-! ## GUIManager -/

/-- The fields of `ImGuiIO` (the block returned by `ImGui::GetIO()`) that
`GUIManager.cpp` writes. -/
structure ImGuiIO where
  KeyCtrl : Bool
  KeyShift : Bool
  KeyAlt : Bool
  KeySuper : Bool
  MouseDrawCursor : Bool
deriving DecidableEq, Repr

/-- The keys of the OIS keyboard that `NewImGuiFrame` polls (`isKeyDown`). -/
structure Keyboard where
  KC_LCONTROL : Bool
  KC_LSHIFT : Bool
  KC_LMENU : Bool
deriving DecidableEq, Repr

/-- Class `GUIManager`: its scalar data members, with the ImGui IO block (global in
the source) carried along. `m_last_mousemove_time` is the clock reading, in
milliseconds, at the last reset of the timer. -/
structure GUIManager where
  m_hide_gui : Bool
  m_gui_kb_capture_queued : Bool
  m_gui_kb_capture_requested : Bool
  m_last_mousemove_time : Nat
  m_is_cursor_supressed : Bool
  imgui_io : ImGuiIO
deriving DecidableEq, Repr

namespace GUIManager

/-- A freshly constructed `GUIManager`: the default member initializers of
`GUIManager.h`, with the timer reset at clock reading `now`. -/
def construct (now : Nat) (io0 : ImGuiIO) : GUIManager :=
  { m_hide_gui := false
    m_gui_kb_capture_queued := false
    m_gui_kb_capture_requested := false
    m_last_mousemove_time := now
    m_is_cursor_supressed := false
    imgui_io := io0 }

/-- Member `RequestGuiCaptureKeyboard`. -/
def RequestGuiCaptureKeyboard (s : GUIManager) (val : Bool) : GUIManager :=
  { s with m_gui_kb_capture_queued := s.m_gui_kb_capture_queued || val }

/-- Member `IsGuiCaptureKeyboardRequested`. -/
def IsGuiCaptureKeyboardRequested (s : GUIManager) : Bool := s.m_gui_kb_capture_requested

/-- Member `ApplyGuiCaptureKeyboard`. -/
def ApplyGuiCaptureKeyboard (s : GUIManager) : GUIManager :=
  { s with m_gui_kb_capture_requested := s.m_gui_kb_capture_queued }

/-- Member `NewImGuiFrame`: reads the keyboard modifiers into the IO block, calls
`Ogre::ImGuiOverlay::NewFrame` (library code, the parameter `overlayNewFrame`, which
acts on the ImGui context only) and resets the queued capture value. -/
def NewImGuiFrame (overlayNewFrame : CFloat → ImGuiIO → ImGuiIO) (kb : Keyboard) (dt : CFloat)
    (s : GUIManager) : GUIManager :=
  let io1 : ImGuiIO :=
    { s.imgui_io with
      KeyCtrl := kb.KC_LCONTROL
      KeyShift := kb.KC_LSHIFT
      KeyAlt := kb.KC_LMENU
      KeySuper := false }
  { s with imgui_io := overlayNewFrame dt io1, m_gui_kb_capture_queued := false }

/-- One frame of keyboard-capture bookkeeping: `NewImGuiFrame`, then one
`RequestGuiCaptureKeyboard` call per element of `vals` in order, then
`ApplyGuiCaptureKeyboard`. -/
def captureFrame (overlayNewFrame : CFloat → ImGuiIO → ImGuiIO) (kb : Keyboard) (dt : CFloat)
    (vals : List Bool) (s : GUIManager) : GUIManager :=
  ApplyGuiCaptureKeyboard
    (vals.foldl RequestGuiCaptureKeyboard (NewImGuiFrame overlayNewFrame kb dt s))

end GUIManager

namespace GUIManager

/-- Enumeration `GUIManager::MouseCursorVisibility`. -/
inductive MouseCursorVisibility where
  | VISIBLE
  | HIDDEN
  | SUPRESSED
deriving DecidableEq, Repr

/-- Member `SupressCursor`: `m_is_cursor_supressed = do_supress`. -/
def SupressCursor (s : GUIManager) (do_supress : Bool) : GUIManager :=
  { s with m_is_cursor_supressed := do_supress }

/-- Member `SetMouseCursorVisibility`: the `switch` over the three enumerators. -/
def SetMouseCursorVisibility (s : GUIManager) : MouseCursorVisibility → GUIManager
  | MouseCursorVisibility.VISIBLE =>
      SupressCursor { s with imgui_io := { s.imgui_io with MouseDrawCursor := true } } false
  | MouseCursorVisibility.HIDDEN =>
      { s with imgui_io := { s.imgui_io with MouseDrawCursor := false } }
  | MouseCursorVisibility.SUPRESSED =>
      SupressCursor { s with imgui_io := { s.imgui_io with MouseDrawCursor := false } } true

/-- Reading of `m_last_mousemove_time.getMilliseconds()` at clock reading `now`:
the milliseconds elapsed since the last reset of the timer. -/
def getMilliseconds (s : GUIManager) (now : Nat) : Nat := now - s.m_last_mousemove_time

/-- Member `UpdateMouseCursorVisibility`, called at clock reading `now`. The call goes
through `App::GetGuiManager()`, the one `GUIManager` of the application. -/
def UpdateMouseCursorVisibility (s : GUIManager) (now : Nat) : GUIManager :=
  if getMilliseconds s now > 5000 then
    SetMouseCursorVisibility s MouseCursorVisibility.HIDDEN
  else s

/-- Member `WakeUpGUI`, called at clock reading `now`: the timer is reset, and the
cursor is made visible unless it is manually suppressed. -/
def WakeUpGUI (s : GUIManager) (now : Nat) : GUIManager :=
  let s1 := { s with m_last_mousemove_time := now }
  if !s1.m_is_cursor_supressed then
    SetMouseCursorVisibility s1 MouseCursorVisibility.VISIBLE
  else s1

/-- Whether the mouse cursor is drawn: `ImGui::GetIO().MouseDrawCursor`. -/
def cursorDrawn (s : GUIManager) : Bool := s.imgui_io.MouseDrawCursor

/-- Calls that may follow a manual suppression of the cursor without asking for it
to be visible: `WakeUpGUI`, `UpdateMouseCursorVisibility` and
`SetMouseCursorVisibility(HIDDEN)`. -/
inductive IdleCall where
  | WakeUpGUI (now : Nat)
  | UpdateMouseCursorVisibility (now : Nat)
  | SetHidden
deriving DecidableEq, Repr

/-- Effect of one such call. -/
def IdleCall.apply (s : GUIManager) : IdleCall → GUIManager
  | IdleCall.WakeUpGUI now => GUIManager.WakeUpGUI s now
  | IdleCall.UpdateMouseCursorVisibility now => GUIManager.UpdateMouseCursorVisibility s now
  | IdleCall.SetHidden => SetMouseCursorVisibility s MouseCursorVisibility.HIDDEN

/-- A sample state: a fresh manager whose cursor was then manually suppressed. -/
def suppressedManager : GUIManager :=
  SetMouseCursorVisibility (construct 0 ⟨false, false, false, false, true⟩)
    MouseCursorVisibility.SUPRESSED

end GUIManager

/-! ## GameScript

Each member function of `GameScript` is a function of the environment it reads (what
the application singletons answer at the time of the call) to an outcome: a fault
(undefined behaviour such as the dereference of a null pointer), or the returned value together with the effects
issued, in order: lines passed to the script log and mutating calls made on
collaborators whose code is outside the sources. -/

/-- Value of `Ogre::Quaternion`. -/
structure Quaternion where
  w : CFloat
  x : CFloat
  y : CFloat
  z : CFloat
deriving DecidableEq, Repr

/-- Constant `Ogre::Quaternion::ZERO`. -/
def Quaternion.ZERO : Quaternion := { w := 0, x := 0, y := 0, z := 0 }

namespace GameScript

/-- What the player avatar (`Character`) answers to its getters. -/
structure Character where
  getPosition : Vector3
  getRotation : CFloat
deriving DecidableEq, Repr

/-- What the water object (`IWater`) answers. -/
structure Water where
  GetStaticWaterHeight : CFloat
deriving DecidableEq, Repr

/-- What the terrain (`TerrainManager`) answers: gravity, height field, the water
object (may be null), whether the object manager and the collisions exist. -/
structure Terrain where
  getGravity : CFloat
  GetHeightAt : CFloat → CFloat → CFloat
  getWater : Option Water
  getObjectManager : Bool
  GetCollisions : Bool

/-- What the camera scene node answers. -/
structure SceneNode where
  getPosition : Vector3
  getOrientation : Quaternion
deriving DecidableEq, Repr

/-- One texture unit of a pass. -/
structure TextureUnitState where
  textureName : String
deriving DecidableEq, Repr

/-- A pass: its texture units. -/
abbrev Pass := List TextureUnitState

/-- A technique: its passes. -/
abbrev Technique := List Pass

/-- A material: its techniques. -/
abbrev Material := List Technique

/-- Result of `MaterialManager::getByName`: a material, a null pointer, or an
`Ogre::Exception` with its full description. -/
inductive MaterialLookup where
  | found (m : Material)
  | null
  | throws (fullDescription : String)
deriving DecidableEq, Repr

/-- What the Ogre accessors `getTechnique`, `getPass` and `getTextureUnitState` do
for an index that is not below the size of the container. -/
inductive OutOfRange where
  | returnsNull
  | throwsException (fullDescription : String)
  | undefinedBehaviour
deriving DecidableEq, Repr

/-- Result of an Ogre accessor call. -/
inductive LibResult (α : Type) where
  | ptr (a : α)
  | null
  | throws (fullDescription : String)
  | undefinedBehaviour
deriving DecidableEq, Repr

/-- An Ogre accessor by index: the element for an index below the size, otherwise
what the library does out of range. -/
def libAt {α : Type} (oob : OutOfRange) (xs : List α) (index : Nat) : LibResult α :=
  match xs[index]? with
  | some a => LibResult.ptr a
  | none =>
    match oob with
    | OutOfRange.returnsNull => LibResult.null
    | OutOfRange.throwsException d => LibResult.throws d
    | OutOfRange.undefinedBehaviour => LibResult.undefinedBehaviour

/-- A pointer to a texture unit state: the material it belongs to and its position. -/
structure TuPtr where
  materialName : String
  techniqueNum : Nat
  passNum : Nat
  textureUnitNum : Nat
deriving DecidableEq, Repr

/-- The environment a `GameScript` function reads. -/
structure Env where
  GetSimTerrain : Option Terrain
  GetPlayerCharacter : Option Character
  GetCamera : Bool
  GetCameraNode : Option SceneNode
  getByName : String → MaterialLookup
  outOfRange : OutOfRange
  getModuleName : String
  GetModule : Option (String → Option Int)
  LoadTerrainObjectThrows : Option String
  rotate : Quaternion → Vector3 → Vector3

/-- Mutating calls on collaborators outside the sources. -/
inductive ExtCall where
  | Character_setPosition (vec : Vector3)
  | Character_move (vec : Vector3)
  | Character_setRotation (rot : CFloat)
  | Water_SetStaticWaterHeight (value : CFloat)
  | Water_UpdateWater
  | Terrain_setGravity (value : CFloat)
  | ObjectManager_unloadObject (instanceName : String)
  | ObjectManager_MoveObjectVisuals (instanceName : String) (pos : Vector3)
  | SceneNode_createChildSceneNode
  | ObjectManager_LoadTerrainObject (objectName : String) (pos rot : Vector3)
      (instanceName : String) (handler_func_id : Int) (uniquifyMaterials : Bool)
  | ActorManager_RepairActor (collisions : Bool) (instanceName box : String) (keepPosition : Bool)
  | Collisions_clearEventCache
  | CameraNode_setPosition (pos : Vector3)
  | CameraNode_setDirection (rot : Vector3)
  | CameraNode_setOrientation (q : Quaternion)
  | CameraNode_yaw (degrees : CFloat)
  | CameraNode_pitch (degrees : CFloat)
  | CameraNode_roll (degrees : CFloat)
  | CameraNode_lookAt (pos : Vector3)
  | TextureUnitState_setTextureName (tu : TuPtr) (textureName : String)
  | TextureUnitState_setTextureRotate (tu : TuPtr) (degrees : CFloat)
  | TextureUnitState_setTextureScroll (tu : TuPtr) (sx sy : CFloat)
  | TextureUnitState_setTextureScale (tu : TuPtr) (u v : CFloat)
deriving DecidableEq, Repr

/-- An effect of a call: a line passed to `ScriptEngine::SLOG`, or a mutating call. -/
inductive Effect where
  | SLOG (line : String)
  | call (c : ExtCall)
deriving DecidableEq, Repr

/-- Undefined behaviour a call can run into. -/
inductive Fault where
  | nullDereference
  | indexOutOfRange
deriving DecidableEq, Repr

/-- Outcome of a call: a fault, or the returned value with the effects issued in
order. -/
inductive Outcome (α : Type) where
  | fault (f : Fault)
  | done (ret : α) (effects : List Effect)
deriving DecidableEq, Repr

/-- The log lines among the effects. -/
def logged : List Effect → List String
  | [] => []
  | Effect.SLOG line :: es => line :: logged es
  | Effect.call _ :: es => logged es

/-- The mutating calls among the effects. -/
def calls : List Effect → List ExtCall
  | [] => []
  | Effect.SLOG _ :: es => calls es
  | Effect.call c :: es => c :: calls es

/-- A `std::string` read through `c_str()` as a C string (`const char*`, `%s`): the
characters before the first NUL. -/
def c_str (s : String) : String :=
  String.mk (s.data.takeWhile (fun c => c != Char.ofNat 0))

/-- Member `log`: the message goes to `SLOG` as it is. -/
def log (msg : String) : List Effect := [Effect.SLOG msg]

/-- Member `logFormat`: the formatted text goes to `SLOG` behind the tag
`[RoR|Script] `. The argument is the text after formatting. -/
def logFormat (formatted : String) : List Effect := [Effect.SLOG ("[RoR|Script] " ++ formatted)]

/-- Member `HaveSimTerrain`; `func_name` is the value of `__FUNCTION__` at the call,
the name of the calling function. -/
def HaveSimTerrain (e : Env) (func_name : String) : Bool × List Effect :=
  match e.GetSimTerrain with
  | none => (false, logFormat ("Cannot execute '" ++ func_name ++ "', terrain not ready"))
  | some _ => (true, [])

/-- Member `HavePlayerAvatar`. -/
def HavePlayerAvatar (e : Env) (func_name : String) : Bool × List Effect :=
  match e.GetPlayerCharacter with
  | none => (false, logFormat ("Cannot execute '" ++ func_name ++ "', player avatar not ready"))
  | some _ => (true, [])

/-- Member `HaveMainCamera`: tests `GetCamera()`. -/
def HaveMainCamera (e : Env) (func_name : String) : Bool × List Effect :=
  if e.GetCamera then (true, [])
  else (false, logFormat ("Cannot execute '" ++ func_name ++ "', main camera not ready"))

/-! ### Getters -/

/-- Member `getPersonPosition`. -/
def getPersonPosition (e : Env) : Outcome Vector3 :=
  match e.GetPlayerCharacter with
  | some c => Outcome.done c.getPosition []
  | none => Outcome.done Vector3.ZERO []

/-- Member `getPersonRotation`. -/
def getPersonRotation (e : Env) : Outcome CFloat :=
  match e.GetPlayerCharacter with
  | some c => Outcome.done c.getRotation []
  | none => Outcome.done 0 []

/-- Member `getGroundHeight`: `result` starts as `-1.0f`. -/
def getGroundHeight (e : Env) (v : Vector3) : Outcome CFloat :=
  match e.GetSimTerrain with
  | some t => Outcome.done (t.GetHeightAt v.x v.z) []
  | none => Outcome.done (-1) []

/-- Member `getWaterHeight`. -/
def getWaterHeight (e : Env) : Outcome CFloat :=
  match e.GetSimTerrain with
  | some t =>
    match t.getWater with
    | some wtr => Outcome.done wtr.GetStaticWaterHeight []
    | none => Outcome.done 0 []
  | none => Outcome.done 0 []

/-- Member `getGravity`. -/
def getGravity (e : Env) : Outcome CFloat :=
  match e.GetSimTerrain with
  | some t => Outcome.done t.getGravity []
  | none => Outcome.done 0 []

/-- Member `getCameraPosition`. -/
def getCameraPosition (e : Env) : Outcome Vector3 :=
  match e.GetCameraNode with
  | some n => Outcome.done n.getPosition []
  | none => Outcome.done Vector3.ZERO []

/-- Member `getCameraDirection`: the orientation applied to `-UNIT_Z`. -/
def getCameraDirection (e : Env) : Outcome Vector3 :=
  match e.GetCameraNode with
  | some n => Outcome.done (e.rotate n.getOrientation ⟨0, 0, -1⟩) []
  | none => Outcome.done Vector3.ZERO []

/-- Member `getCameraOrientation`. -/
def getCameraOrientation (e : Env) : Outcome Quaternion :=
  match e.GetCameraNode with
  | some n => Outcome.done n.getOrientation []
  | none => Outcome.done Quaternion.ZERO []

/-! ### Avatar and camera mutators -/

/-- Member `setPersonPosition`. -/
def setPersonPosition (e : Env) (vec : Vector3) : Outcome Unit :=
  if !(HavePlayerAvatar e "setPersonPosition").1 then
    Outcome.done () (HavePlayerAvatar e "setPersonPosition").2
  else
    match e.GetPlayerCharacter with
    | none => Outcome.fault Fault.nullDereference
    | some _ => Outcome.done () [Effect.call (ExtCall.Character_setPosition vec)]

/-- Member `movePerson`. -/
def movePerson (e : Env) (vec : Vector3) : Outcome Unit :=
  if !(HavePlayerAvatar e "movePerson").1 then
    Outcome.done () (HavePlayerAvatar e "movePerson").2
  else
    match e.GetPlayerCharacter with
    | none => Outcome.fault Fault.nullDereference
    | some _ => Outcome.done () [Effect.call (ExtCall.Character_move vec)]

/-- Member `setPersonRotation`. -/
def setPersonRotation (e : Env) (rot : CFloat) : Outcome Unit :=
  if !(HavePlayerAvatar e "setPersonRotation").1 then
    Outcome.done () (HavePlayerAvatar e "setPersonRotation").2
  else
    match e.GetPlayerCharacter with
    | none => Outcome.fault Fault.nullDereference
    | some _ => Outcome.done () [Effect.call (ExtCall.Character_setRotation rot)]

/-- The common body of the camera mutators: the guard `HaveMainCamera(__FUNCTION__)`,
then one call on `GetCameraNode()`, which is dereferenced without a test. -/
def onCameraNode (e : Env) (func_name : String) (c : ExtCall) : Outcome Unit :=
  if !(HaveMainCamera e func_name).1 then
    Outcome.done () (HaveMainCamera e func_name).2
  else
    match e.GetCameraNode with
    | none => Outcome.fault Fault.nullDereference
    | some _ => Outcome.done () [Effect.call c]

/-- Member `setCameraPosition`. -/
def setCameraPosition (e : Env) (pos : Vector3) : Outcome Unit :=
  onCameraNode e "setCameraPosition" (ExtCall.CameraNode_setPosition ⟨pos.x, pos.y, pos.z⟩)

/-- Member `setCameraDirection`. -/
def setCameraDirection (e : Env) (rot : Vector3) : Outcome Unit :=
  onCameraNode e "setCameraDirection" (ExtCall.CameraNode_setDirection ⟨rot.x, rot.y, rot.z⟩)

/-- Member `setCameraOrientation`. -/
def setCameraOrientation (e : Env) (q : Quaternion) : Outcome Unit :=
  onCameraNode e "setCameraOrientation" (ExtCall.CameraNode_setOrientation ⟨q.w, q.x, q.y, q.z⟩)

/-- Member `setCameraYaw`. -/
def setCameraYaw (e : Env) (rotX : CFloat) : Outcome Unit :=
  onCameraNode e "setCameraYaw" (ExtCall.CameraNode_yaw rotX)

/-- Member `setCameraPitch`. -/
def setCameraPitch (e : Env) (rotY : CFloat) : Outcome Unit :=
  onCameraNode e "setCameraPitch" (ExtCall.CameraNode_pitch rotY)

/-- Member `setCameraRoll`. -/
def setCameraRoll (e : Env) (rotZ : CFloat) : Outcome Unit :=
  onCameraNode e "setCameraRoll" (ExtCall.CameraNode_roll rotZ)

/-- Member `cameraLookAt`. -/
def cameraLookAt (e : Env) (pos : Vector3) : Outcome Unit :=
  onCameraNode e "cameraLookAt" (ExtCall.CameraNode_lookAt ⟨pos.x, pos.y, pos.z⟩)

/-! ### Operations through the terrain -/

/-- Member `setWaterHeight`. -/
def setWaterHeight (e : Env) (value : CFloat) : Outcome Unit :=
  if !(HaveSimTerrain e "setWaterHeight").1 then
    Outcome.done () (HaveSimTerrain e "setWaterHeight").2
  else
    match e.GetSimTerrain with
    | none => Outcome.fault Fault.nullDereference
    | some t =>
      match t.getWater with
      | some _ =>
        Outcome.done () [Effect.call (ExtCall.Water_SetStaticWaterHeight value),
          Effect.call ExtCall.Water_UpdateWater]
      | none => Outcome.done () []

/-- Member `setGravity`. -/
def setGravity (e : Env) (value : CFloat) : Outcome Unit :=
  if !(HaveSimTerrain e "setGravity").1 then
    Outcome.done () (HaveSimTerrain e "setGravity").2
  else
    match e.GetSimTerrain with
    | none => Outcome.fault Fault.nullDereference
    | some _ => Outcome.done () [Effect.call (ExtCall.Terrain_setGravity value)]

/-- Member `destroyObject`. -/
def destroyObject (e : Env) (instanceName : String) : Outcome Unit :=
  if !(HaveSimTerrain e "destroyObject").1 then
    Outcome.done () (HaveSimTerrain e "destroyObject").2
  else
    match e.GetSimTerrain with
    | none => Outcome.fault Fault.nullDereference
    | some t =>
      if t.getObjectManager then
        Outcome.done () [Effect.call (ExtCall.ObjectManager_unloadObject instanceName)]
      else Outcome.done () []

/-- Member `MoveTerrainObjectVisuals`. -/
def MoveTerrainObjectVisuals (e : Env) (instanceName : String) (pos : Vector3) : Outcome Unit :=
  if !(HaveSimTerrain e "MoveTerrainObjectVisuals").1 then
    Outcome.done () (HaveSimTerrain e "MoveTerrainObjectVisuals").2
  else
    match e.GetSimTerrain with
    | none => Outcome.fault Fault.nullDereference
    | some t =>
      if t.getObjectManager then
        Outcome.done () [Effect.call (ExtCall.ObjectManager_MoveObjectVisuals instanceName pos)]
      else Outcome.done () []

/-- Member `spawnObject`. `GetModule` of the environment is the script module looked
up by name (null when it does not exist), as the map from function names to
function ids; `LoadTerrainObjectThrows` is the message of the `std::exception`
that `LoadTerrainObject` throws, if it throws. -/
def spawnObject (e : Env) (objectName instanceName : String) (pos rot : Vector3)
    (eventhandler : String) (uniquifyMaterials : Bool) : Outcome Unit :=
  if !(HaveSimTerrain e "spawnObject").1 then
    Outcome.done () (HaveSimTerrain e "spawnObject").2
  else
    match e.GetSimTerrain with
    | none => Outcome.fault Fault.nullDereference
    | some t =>
      if !t.getObjectManager then
        Outcome.done () (logFormat "spawnObject(): Cannot spawn object, no terrain loaded!")
      else
        match e.GetModule with
        | none =>
          Outcome.done () (logFormat
            ("spawnObject(): Failed to fetch/create script module '" ++ e.getModuleName ++ "'"))
        | some module =>
          let handler : Int × List Effect :=
            if eventhandler.isEmpty then (-1, [])
            else
              match module (c_str eventhandler) with
              | some id => (id, [])
              | none =>
                (-1, logFormat ("spawnObject(): Warning; Failed to find handler function '"
                  ++ c_str eventhandler ++ "' in script module '" ++ e.getModuleName ++ "'"))
          let issued : List Effect :=
            handler.2 ++ [Effect.call ExtCall.SceneNode_createChildSceneNode,
              Effect.call (ExtCall.ObjectManager_LoadTerrainObject objectName pos rot
                instanceName handler.1 uniquifyMaterials)]
          match e.LoadTerrainObjectThrows with
          | none => Outcome.done () issued
          | some what =>
            Outcome.done () (issued
              ++ logFormat ("spawnObject(): An exception occurred, message: " ++ what))

/-- Member `repairVehicle`: `App::GetSimTerrain()->GetCollisions()` is evaluated
without a test of the terrain pointer. -/
def repairVehicle (e : Env) (instanceName box : String) (keepPosition : Bool) : Outcome Unit :=
  match e.GetSimTerrain with
  | none => Outcome.fault Fault.nullDereference
  | some t =>
    Outcome.done ()
      [Effect.call (ExtCall.ActorManager_RepairActor t.GetCollisions instanceName box keepPosition)]

/-- Member `clearEventCache`: `App::GetSimTerrain()->GetCollisions()` is evaluated
without a test of the terrain pointer; only the collisions pointer is tested. -/
def clearEventCache (e : Env) : Outcome Unit :=
  match e.GetSimTerrain with
  | none => Outcome.fault Fault.nullDereference
  | some t =>
    if !t.GetCollisions then
      Outcome.done () (logFormat "Cannot execute 'clearEventCache', collisions not ready")
    else Outcome.done () [Effect.call ExtCall.Collisions_clearEventCache]

/-! ### Texture units -/

/-- Member `getSafeTextureUnitState`. The argument `tu` is the value of `*tu` before
the call and the second component of the result is its value after the call. The
range tests are those of the source: an index is refused when it is negative or
greater than the count. An `Ogre::Exception` is caught, logged, and 1 is returned. -/
def getSafeTextureUnitState (e : Env) (tu : Option TuPtr) (materialName : String)
    (techniqueNum passNum textureUnitNum : Int) : Outcome (Int × Option TuPtr) :=
  let caught (d : String) : Outcome (Int × Option TuPtr) :=
    Outcome.done (1, tu) (log ("Exception in getSafeTextureUnitState(): " ++ d))
  match e.getByName materialName with
  | MaterialLookup.throws d => caught d
  | MaterialLookup.null => Outcome.done (1, tu) []
  | MaterialLookup.found m =>
    if techniqueNum < 0 ∨ techniqueNum > (m.length : Int) then Outcome.done (2, tu) []
    else
      match libAt e.outOfRange m techniqueNum.toNat with
      | LibResult.undefinedBehaviour => Outcome.fault Fault.indexOutOfRange
      | LibResult.throws d => caught d
      | LibResult.null => Outcome.done (2, tu) []
      | LibResult.ptr t =>
        if passNum < 0 ∨ passNum > (t.length : Int) then Outcome.done (3, tu) []
        else
          match libAt e.outOfRange t passNum.toNat with
          | LibResult.undefinedBehaviour => Outcome.fault Fault.indexOutOfRange
          | LibResult.throws d => caught d
          | LibResult.null => Outcome.done (3, tu) []
          | LibResult.ptr p =>
            if textureUnitNum < 0 ∨ textureUnitNum > (p.length : Int) then
              Outcome.done (4, tu) []
            else
              match libAt e.outOfRange p textureUnitNum.toNat with
              | LibResult.undefinedBehaviour => Outcome.fault Fault.indexOutOfRange
              | LibResult.throws d => caught d
              | LibResult.null => Outcome.done (4, tu) []
              | LibResult.ptr _ =>
                Outcome.done
                  (0, some ⟨materialName, techniqueNum.toNat, passNum.toNat,
                    textureUnitNum.toNat⟩) []

/-- The common body of the four `setMaterialTexture...` members: `tu` starts as null,
`getSafeTextureUnitState` is called, the setter `c` is applied to the unit when
`res == 0 && tu != 0`, and `res` is returned. -/
def withTextureUnit (e : Env) (materialName : String) (techniqueNum passNum textureUnitNum : Int)
    (c : TuPtr → ExtCall) : Outcome Int :=
  match getSafeTextureUnitState e none materialName techniqueNum passNum textureUnitNum with
  | Outcome.fault f => Outcome.fault f
  | Outcome.done (res, tu) effects =>
    match tu with
    | some ptr =>
      if res = 0 then Outcome.done res (effects ++ [Effect.call (c ptr)])
      else Outcome.done res effects
    | none => Outcome.done res effects

/-- Member `setMaterialTextureName`. -/
def setMaterialTextureName (e : Env) (materialName : String)
    (techniqueNum passNum textureUnitNum : Int) (textureName : String) : Outcome Int :=
  withTextureUnit e materialName techniqueNum passNum textureUnitNum
    (fun ptr => ExtCall.TextureUnitState_setTextureName ptr textureName)

/-- Member `setMaterialTextureRotate`. -/
def setMaterialTextureRotate (e : Env) (materialName : String)
    (techniqueNum passNum textureUnitNum : Int) (rotation : CFloat) : Outcome Int :=
  withTextureUnit e materialName techniqueNum passNum textureUnitNum
    (fun ptr => ExtCall.TextureUnitState_setTextureRotate ptr rotation)

/-- Member `setMaterialTextureScroll`. -/
def setMaterialTextureScroll (e : Env) (materialName : String)
    (techniqueNum passNum textureUnitNum : Int) (sx sy : CFloat) : Outcome Int :=
  withTextureUnit e materialName techniqueNum passNum textureUnitNum
    (fun ptr => ExtCall.TextureUnitState_setTextureScroll ptr sx sy)

/-- Member `setMaterialTextureScale`. -/
def setMaterialTextureScale (e : Env) (materialName : String)
    (techniqueNum passNum textureUnitNum : Int) (u v : CFloat) : Outcome Int :=
  withTextureUnit e materialName techniqueNum passNum textureUnitNum
    (fun ptr => ExtCall.TextureUnitState_setTextureScale ptr u v)

/-! ### Sample environments -/

/-- The environment of the main menu: no terrain, no avatar, no camera, no
materials, no script module. -/
def menuEnv : Env :=
  { GetSimTerrain := none
    GetPlayerCharacter := none
    GetCamera := false
    GetCameraNode := none
    getByName := fun _ => MaterialLookup.null
    outOfRange := OutOfRange.undefinedBehaviour
    getModuleName := "script"
    GetModule := none
    LoadTerrainObjectThrows := none
    rotate := fun _ v => v }

/-- An environment with one material `"flag"`: one technique, one pass, one texture
unit; the library accessors behave out of range as `oob` says. -/
def flagEnv (oob : OutOfRange) : Env :=
  { menuEnv with
    getByName := fun n =>
      if n = "flag" then MaterialLookup.found [[[⟨"flag.png"⟩]]] else MaterialLookup.null
    outOfRange := oob }

end GameScript

/-! ## GUIManager panels, drawing and input events

The panel classes (`GUI::ConsoleWindow`, `GUI::GameChatBox`, ...) are outside the
sources. A panel is represented by the answer of its `IsVisible()`, which
`SetVisible(v)` sets to `v`; the calls `Draw()` and `Update()` on panels and the
calls on the overlay wrapper and the survey map are recorded in order, and what such
a call does to the GUI state is a parameter (`effect`). -/

namespace GUIManager

/-- The panels of `GuiManagerImpl`. -/
inductive Panel where
  | GameMainMenu
  | GameAbout
  | GameSettings
  | SimActorStats
  | SimPerfStats
  | MessageBox
  | MultiplayerSelector
  | MainSelector
  | ChatBox
  | VehicleDescription
  | MpClientList
  | FrictionSettings
  | TextureToolWindow
  | GameControls
  | NodeBeamUtils
  | LoadingWindow
  | TopMenubar
  | ConsoleWindow
  | SurveyMap
  | DirectionArrow
deriving DecidableEq, Repr

/-- Struct `GuiManagerImpl`: for each panel, what its `IsVisible()` answers. -/
structure GuiManagerImpl where
  visible : Panel → Bool

/-- The GUI state: the members of the `GUIManager` and the panels behind `m_impl`. -/
structure Gui where
  manager : GUIManager
  m_impl : GuiManagerImpl

/-- Members `IsVisible_Console`, `IsVisible_ChatBox`, ...: `m_impl->panel.IsVisible()`. -/
def IsVisible (g : Gui) (p : Panel) : Bool := g.m_impl.visible p

/-- Members `SetVisible_Console`, `SetVisible_ChatBox`, ...: `m_impl->panel.SetVisible(v)`. -/
def SetVisible (g : Gui) (p : Panel) (v : Bool) : Gui :=
  { g with m_impl := { visible := fun q => if q = p then v else g.m_impl.visible q } }

/-- Member `IsGuiHidden`. -/
def IsGuiHidden (g : Gui) : Bool := g.manager.m_hide_gui

/-- Arguments of `MessageBoxDialog::Show`; a null `const char*` is `none`. -/
structure MessageBoxShow where
  title : String
  text : String
  allow_close : Bool
  btn1_text : Option String
  btn2_text : Option String
deriving DecidableEq, Repr

/-- Calls on collaborators outside the sources. The player actor is a handle. -/
inductive GuiCall where
  | Draw (p : Panel)
  | SimActorStats_Draw (player_gfx_actor : Nat)
  | TopMenubar_Update
  | DirectionArrow_Update (player_gfx_actor : Option Nat)
  | showDashboardOverlays (visible : Bool)
  | ToggleDashboardOverlays
  | SurveyMap_CycleMode
  | SurveyMap_ToggleMode
  | MessageBox_Show (args : MessageBoxShow)
deriving DecidableEq, Repr

/-- The input events that `UpdateInputEvents` polls. -/
inductive InputEvent where
  | EV_COMMON_CONSOLE_TOGGLE
  | EV_COMMON_HIDE_GUI
  | EV_COMMON_ENTER_CHATMODE
  | EV_COMMON_TRUCK_INFO
  | EV_COMMON_TRUCK_DESCRIPTION
  | EV_COMMON_TOGGLE_DASHBOARD
  | EV_COMMON_TOGGLE_STATS
  | EV_SURVEY_MAP_CYCLE
  | EV_SURVEY_MAP_TOGGLE
deriving DecidableEq, Repr

/-- What the application answers during a call: for each input event whether
`getEventBoolValueBounce` fires, whether `app_state` is `SIMULATION`, whether
`mp_state` is `CONNECTED`, whether there is a player actor, and whether the current
camera behavior is `CAMERA_BEHAVIOR_FREE`. -/
structure AppEnv where
  fired : InputEvent → Bool
  app_state_is_SIMULATION : Bool
  mp_state_is_CONNECTED : Bool
  GetPlayerActor : Bool
  camera_behavior_is_FREE : Bool

/-- The GUI state together with the calls issued so far. -/
abbrev Frame := Gui × List GuiCall

/-- One call on a collaborator: it is recorded, and the callee acts on the GUI state. -/
def issue (effect : GuiCall → Gui → Gui) (c : GuiCall) (f : Frame) : Frame :=
  (effect c f.1, f.2 ++ [c])

/-- The statement `if (panel.IsVisible()) { panel.Draw(); }`. -/
def drawIfVisible (effect : GuiCall → Gui → Gui) (p : Panel) (f : Frame) : Frame :=
  if IsVisible f.1 p then issue effect (GuiCall.Draw p) f else f

/-- Member `DrawCommonGui`. -/
def DrawCommonGui (effect : GuiCall → Gui → Gui) (env : AppEnv) (f : Frame) : Frame :=
  let f1 :=
    if env.mp_state_is_CONNECTED && !f.1.manager.m_hide_gui then
      issue effect (GuiCall.Draw Panel.MpClientList) f
    else f
  let f2 := drawIfVisible effect Panel.MainSelector f1
  let f3 := drawIfVisible effect Panel.ConsoleWindow f2
  drawIfVisible effect Panel.GameControls f3

/-- The part of `DrawSimGuiBuffered` before the chat box: `DrawCommonGui`, then the
actor statistics when there is a player actor and the panel is visible. -/
def beforeChatBox (effect : GuiCall → Gui → Gui) (env : AppEnv) (player_gfx_actor : Option Nat)
    (f : Frame) : Frame :=
  let f1 := DrawCommonGui effect env f
  match player_gfx_actor with
  | some a =>
    if IsVisible f1.1 Panel.SimActorStats then issue effect (GuiCall.SimActorStats_Draw a) f1
    else f1
  | none => f1

/-- The chat box statement of `DrawSimGuiBuffered`:
`if (!IsVisible_Console()) { if (!m_hide_gui) { panel_ChatBox.Draw(); } }`. -/
def drawChatBox (effect : GuiCall → Gui → Gui) (f : Frame) : Frame :=
  if !IsVisible f.1 Panel.ConsoleWindow then
    if !f.1.manager.m_hide_gui then issue effect (GuiCall.Draw Panel.ChatBox) f else f
  else f

/-- The part of `DrawSimGuiBuffered` after the chat box: six panels drawn when
visible, then `panel_DirectionArrow.Update(player_gfx_actor)`. -/
def afterChatBox (effect : GuiCall → Gui → Gui) (player_gfx_actor : Option Nat) (f : Frame) :
    Frame :=
  let f1 := drawIfVisible effect Panel.LoadingWindow f
  let f2 := drawIfVisible effect Panel.FrictionSettings f1
  let f3 := drawIfVisible effect Panel.VehicleDescription f2
  let f4 := drawIfVisible effect Panel.SimPerfStats f3
  let f5 := drawIfVisible effect Panel.TextureToolWindow f4
  let f6 := drawIfVisible effect Panel.SurveyMap f5
  issue effect (GuiCall.DirectionArrow_Update player_gfx_actor) f6

/-- Member `DrawSimGuiBuffered`. -/
def DrawSimGuiBuffered (effect : GuiCall → Gui → Gui) (env : AppEnv)
    (player_gfx_actor : Option Nat) (f : Frame) : Frame :=
  afterChatBox effect player_gfx_actor
    (drawChatBox effect (beforeChatBox effect env player_gfx_actor f))

/-- Member `SetGuiHidden`. -/
def SetGuiHidden (effect : GuiCall → Gui → Gui) (hidden : Bool) (f : Frame) : Frame :=
  let f1 : Frame := ({ f.1 with manager := { f.1.manager with m_hide_gui := hidden } }, f.2)
  let f2 := issue effect (GuiCall.showDashboardOverlays (!hidden)) f1
  if hidden then
    (SetVisible (SetVisible f2.1 Panel.SimPerfStats false) Panel.ChatBox false, f2.2)
  else f2

/-- The statement `SetVisible_X(!IsVisible_X())`. -/
def toggleVisible (p : Panel) (f : Frame) : Frame :=
  (SetVisible f.1 p (!IsVisible f.1 p), f.2)

/-- The block of `UpdateInputEvents` under `app_state == AppState::SIMULATION`. -/
def simulationInputEvents (effect : GuiCall → Gui → Gui) (env : AppEnv) (f : Frame) : Frame :=
  let f1 :=
    if env.fired InputEvent.EV_COMMON_HIDE_GUI then SetGuiHidden effect (!IsGuiHidden f.1) f
    else f
  let f2 :=
    if env.fired InputEvent.EV_COMMON_ENTER_CHATMODE && env.mp_state_is_CONNECTED then
      toggleVisible Panel.ChatBox f1
    else f1
  let f3 :=
    if env.fired InputEvent.EV_COMMON_TRUCK_INFO && env.GetPlayerActor then
      toggleVisible Panel.SimActorStats f2
    else f2
  let f4 :=
    if env.fired InputEvent.EV_COMMON_TRUCK_DESCRIPTION && env.GetPlayerActor then
      toggleVisible Panel.VehicleDescription f3
    else f3
  let f5 :=
    if env.fired InputEvent.EV_COMMON_TOGGLE_DASHBOARD then
      issue effect GuiCall.ToggleDashboardOverlays f4
    else f4
  let f6 :=
    if env.fired InputEvent.EV_COMMON_TOGGLE_STATS then toggleVisible Panel.SimPerfStats f5
    else f5
  if !env.camera_behavior_is_FREE then
    let f7 :=
      if env.fired InputEvent.EV_SURVEY_MAP_CYCLE then issue effect GuiCall.SurveyMap_CycleMode f6
      else f6
    if env.fired InputEvent.EV_SURVEY_MAP_TOGGLE then issue effect GuiCall.SurveyMap_ToggleMode f7
    else f7
  else f6

/-- Member `UpdateInputEvents`: the console toggle is handled in every application
state, the other events only in the simulation. -/
def UpdateInputEvents (effect : GuiCall → Gui → Gui) (env : AppEnv) (f : Frame) : Frame :=
  let f1 :=
    if env.fired InputEvent.EV_COMMON_CONSOLE_TOGGLE then toggleVisible Panel.ConsoleWindow f
    else f
  if env.app_state_is_SIMULATION then simulationInputEvents effect env f1 else f1

/-- Member `ShowMessageBox` (the overload with five arguments): forwards them to
`m_impl->panel_MessageBox.Show`. -/
def ShowMessageBox (title text : String) (allow_close : Bool) (btn1_text btn2_text : Option String) :
    GuiCall :=
  GuiCall.MessageBox_Show ⟨title, text, allow_close, btn1_text, btn2_text⟩

end GUIManager

namespace GameScript

/-- Member `showMessageBox`: the call it makes on the GUI manager. The texts are
handed over as `const char*` (`c_str()`), so the callee reads each of them up to
its first NUL; the test for a button text is `empty()` on the whole string. -/
def showMessageBox (title text : String) (use_btn1 : Bool) (btn1_text : String)
    (allow_close use_btn2 : Bool) (btn2_text : String) : GUIManager.GuiCall :=
  let btn1_cstr : Option String :=
    if use_btn1 then some (if btn1_text.isEmpty then "~1~" else c_str btn1_text) else none
  let btn2_cstr : Option String :=
    if use_btn2 then some (if btn2_text.isEmpty then "~2~" else c_str btn2_text) else none
  GUIManager.ShowMessageBox (c_str title) (c_str text) allow_close btn1_cstr btn2_cstr

/-- A button text that is not empty and starts with a NUL character. -/
def nulThenX : String := String.mk [Char.ofNat 0, 'x']

end GameScript

/-! ## Theorems -/

namespace GfxActor

open DebugViewType

/-- C1: a newly constructed `SimBuffer` has heading mode `Autopilot::HEADING_NONE`,
altitude mode `Autopilot::ALT_NONE`, target altitude 1000 and target airspeed 150;
the IAS, GPWS and ILS-available flags are false; heading value, vertical-speed value
and both ILS deviations are 0. -/
theorem SimBuffer_autopilot_defaults (k : ExternConsts) (u : Int) :
    (SimBuffer.defaultInit k u).simbuf_ap_heading_mode = k.HEADING_NONE
    ∧ (SimBuffer.defaultInit k u).simbuf_ap_alt_mode = k.ALT_NONE
    ∧ (SimBuffer.defaultInit k u).simbuf_ap_alt_value = 1000
    ∧ (SimBuffer.defaultInit k u).simbuf_ap_ias_value = 150
    ∧ (SimBuffer.defaultInit k u).simbuf_ap_ias_mode = false
    ∧ (SimBuffer.defaultInit k u).simbuf_ap_gpws_mode = false
    ∧ (SimBuffer.defaultInit k u).simbuf_ap_ils_available = false
    ∧ (SimBuffer.defaultInit k u).simbuf_ap_heading_value = 0
    ∧ (SimBuffer.defaultInit k u).simbuf_ap_vs_value = 0
    ∧ (SimBuffer.defaultInit k u).simbuf_ap_ils_vdev = 0
    ∧ (SimBuffer.defaultInit k u).simbuf_ap_ils_hdev = 0 :=
  ⟨rfl, rfl, rfl, rfl, rfl, rfl, rfl, rfl, rfl, rfl, rfl⟩

/-- Every non-autopilot scalar `int` and `float` field that has a default member
initializer is zero in a newly constructed `SimBuffer`, whatever the storage held. -/
theorem SimBuffer_initialized_scalars_zero (k : ExternConsts) (u : Int) :
    (SimBuffer.defaultInit k u).simbuf_rotation = 0
    ∧ (SimBuffer.defaultInit k u).simbuf_tyre_pressure = 0
    ∧ (SimBuffer.defaultInit k u).simbuf_gear = 0
    ∧ (SimBuffer.defaultInit k u).simbuf_autoshift = 0
    ∧ (SimBuffer.defaultInit k u).simbuf_wheel_speed = 0
    ∧ (SimBuffer.defaultInit k u).simbuf_engine_rpm = 0
    ∧ (SimBuffer.defaultInit k u).simbuf_engine_crankfactor = 0
    ∧ (SimBuffer.defaultInit k u).simbuf_engine_turbo_psi = 0
    ∧ (SimBuffer.defaultInit k u).simbuf_engine_accel = 0
    ∧ (SimBuffer.defaultInit k u).simbuf_engine_torque = 0
    ∧ (SimBuffer.defaultInit k u).simbuf_inputshaft_rpm = 0
    ∧ (SimBuffer.defaultInit k u).simbuf_drive_ratio = 0
    ∧ (SimBuffer.defaultInit k u).simbuf_hydro_dir_state = 0
    ∧ (SimBuffer.defaultInit k u).simbuf_hydro_aileron_state = 0
    ∧ (SimBuffer.defaultInit k u).simbuf_hydro_elevator_state = 0
    ∧ (SimBuffer.defaultInit k u).simbuf_hydro_aero_rudder_state = 0
    ∧ (SimBuffer.defaultInit k u).simbuf_cur_cinecam = 0
    ∧ (SimBuffer.defaultInit k u).simbuf_brake = 0
    ∧ (SimBuffer.defaultInit k u).simbuf_clutch = 0
    ∧ (SimBuffer.defaultInit k u).simbuf_aero_flap_state = 0
    ∧ (SimBuffer.defaultInit k u).simbuf_airbrake_state = 0
    ∧ (SimBuffer.defaultInit k u).simbuf_wing4_aoa = 0
    ∧ (SimBuffer.defaultInit k u).simbuf_top_speed = 0 :=
  ⟨rfl, rfl, rfl, rfl, rfl, rfl, rfl, rfl, rfl, rfl, rfl, rfl, rfl, rfl, rfl, rfl, rfl, rfl,
   rfl, rfl, rfl, rfl, rfl⟩

/-- The field `simbuf_net_colornum` of a default-initialised `SimBuffer` is whatever
its storage held. -/
theorem SimBuffer_net_colornum_is_storage (k : ExternConsts) (u : Int) :
    (SimBuffer.defaultInit k u).simbuf_net_colornum = u := rfl

/-- C2 (code defect): `simbuf_net_colornum` is the one scalar field declared without
a default member initializer; in a `SimBuffer` default-initialised over storage that
held 7 it reads 7, not zero, while its neighbours `simbuf_gear` and
`simbuf_autoshift` read 0. -/
theorem SimBuffer_net_colornum_not_zeroed :
    (SimBuffer.defaultInit ⟨0, 0, 0, 0⟩ 7).simbuf_net_colornum = 7
    ∧ (SimBuffer.defaultInit ⟨0, 0, 0, 0⟩ 7).simbuf_net_colornum ≠ 0
    ∧ (SimBuffer.defaultInit ⟨0, 0, 0, 0⟩ 7).simbuf_gear = 0
    ∧ (SimBuffer.defaultInit ⟨0, 0, 0, 0⟩ 7).simbuf_autoshift = 0 := by
  refine ⟨rfl, ?_, rfl, rfl⟩
  show (7 : Int) ≠ 0
  decide

/-- C5: `DebugViewType` has exactly nine pairwise distinct states, declared in the
order NONE, SKELETON, NODES, BEAMS, WHEELS, SHOCKS, ROTATORS, SLIDENODES, SUBMESH;
their ordinals are 0..8 (NONE is 0, SUBMESH is 8); and the next state in enumeration
order, wrapping to NONE, exists and is unique for every state. -/
theorem DebugViewType_nine_states_in_order :
    enumerators = [DEBUGVIEW_NONE, DEBUGVIEW_SKELETON, DEBUGVIEW_NODES, DEBUGVIEW_BEAMS,
      DEBUGVIEW_WHEELS, DEBUGVIEW_SHOCKS, DEBUGVIEW_ROTATORS, DEBUGVIEW_SLIDENODES,
      DEBUGVIEW_SUBMESH]
    ∧ enumerators.length = 9
    ∧ enumerators.Nodup
    ∧ (∀ d : DebugViewType, d ∈ enumerators)
    ∧ enumerators.map ordinal = List.range 9
    ∧ ordinal DEBUGVIEW_NONE = 0
    ∧ ordinal DEBUGVIEW_SUBMESH = 8
    ∧ (∀ d : DebugViewType, ∃ d1 : DebugViewType,
        nextInOrder d = some d1 ∧ ordinal d1 = (ordinal d + 1) % 9
        ∧ ∀ d2 : DebugViewType, ordinal d2 = (ordinal d + 1) % 9 → d2 = d1)
    ∧ nextInOrder DEBUGVIEW_SUBMESH = some DEBUGVIEW_NONE := by
  refine ⟨rfl, rfl, by decide, ?_, by decide, rfl, rfl, ?_, by decide⟩
  · intro d; cases d <;> decide
  · intro d
    cases d
    all_goals
      refine ⟨_, rfl, by decide, ?_⟩
      intro d2
      cases d2 <;> decide

/-- The view after `n` cycle operations is the `n`-th successor of the view. -/
theorem GetDebugView_iterate_CycleDebugViews (n : Nat) (g : GfxActor) :
    GetDebugView (CycleDebugViews^[n] g) = DebugViewType.next^[n] g.m_debug_view := by
  induction n generalizing g with
  | zero => rfl
  | succ n ih =>
    rw [Function.iterate_succ_apply, Function.iterate_succ_apply, ih]
    rfl

/-- C6: starting with the view at NONE, the views after 1, 2, ..., 9 calls of
`CycleDebugViews` are SKELETON, NODES, BEAMS, WHEELS, SHOCKS, ROTATORS, SLIDENODES,
SUBMESH, NONE: the first eight calls visit every non-NONE state exactly once, in
enumeration order, and the ninth call returns to NONE. -/
theorem CycleDebugViews_visits_all_then_NONE (g : GfxActor)
    (h : GetDebugView g = DEBUGVIEW_NONE) :
    (List.range 9).map (fun n => GetDebugView (CycleDebugViews^[n + 1] g))
      = enumerators.tail ++ [DEBUGVIEW_NONE]
    ∧ ((List.range 8).map (fun n => GetDebugView (CycleDebugViews^[n + 1] g))).Nodup
    ∧ (∀ d : DebugViewType, d ≠ DEBUGVIEW_NONE →
        d ∈ (List.range 8).map (fun n => GetDebugView (CycleDebugViews^[n + 1] g)))
    ∧ DEBUGVIEW_NONE ∉ (List.range 8).map (fun n => GetDebugView (CycleDebugViews^[n + 1] g))
    ∧ GetDebugView (CycleDebugViews^[9] g) = DEBUGVIEW_NONE
    ∧ ∀ d : DebugViewType, nextInOrder d = some d.next := by
  have hv : g.m_debug_view = DEBUGVIEW_NONE := h
  simp only [GetDebugView_iterate_CycleDebugViews, hv]
  refine ⟨by decide, by decide, ?_, by decide, by decide, ?_⟩
  · intro d hd
    cases d
    · exact absurd rfl hd
    all_goals decide
  · intro d; cases d <;> decide

/-- Witness for C6: the sample actor starts at NONE and its nine cycle steps are as stated. -/
theorem CycleDebugViews_visits_all_then_NONE_witness :
    GetDebugView (sampleGfxActor ⟨0, 0, 0, 0⟩) = DEBUGVIEW_NONE
    ∧ (List.range 9).map
        (fun n => GetDebugView (CycleDebugViews^[n + 1] (sampleGfxActor ⟨0, 0, 0, 0⟩)))
      = enumerators.tail ++ [DEBUGVIEW_NONE] :=
  ⟨rfl, (CycleDebugViews_visits_all_then_NONE (sampleGfxActor ⟨0, 0, 0, 0⟩) rfl).1⟩

/-- C7: for every state of the object (every view X, NONE included), two successive
`ToggleDebugView` calls return `GetDebugView` to X; one toggle from a non-NONE view
goes to NONE and stores that view in `m_last_debug_view`, and one toggle from NONE
goes to the view stored in `m_last_debug_view`, which it leaves stored. -/
theorem ToggleDebugView_twice (g : GfxActor) :
    GetDebugView (ToggleDebugView (ToggleDebugView g)) = GetDebugView g
    ∧ GetDebugView (ToggleDebugView g)
        = (if GetDebugView g = DEBUGVIEW_NONE then g.m_last_debug_view else DEBUGVIEW_NONE)
    ∧ (ToggleDebugView g).m_last_debug_view
        = (if GetDebugView g = DEBUGVIEW_NONE then g.m_last_debug_view else GetDebugView g) := by
  unfold ToggleDebugView GetDebugView
  by_cases h1 : g.m_debug_view = DEBUGVIEW_NONE
  · by_cases h2 : g.m_last_debug_view = DEBUGVIEW_NONE
    · simp [h1, h2]
    · simp [h1, h2]
  · simp [h1]

/-- Overwriting in place from a source of the same length succeeds and yields the source. -/
theorem overwriteInPlace_of_length_eq {α : Type} :
    ∀ (buf src : List α), buf.length = src.length → overwriteInPlace buf src = some src
  | [], [], _ => rfl
  | _ :: bs, v :: vs, h => by
    have ih := overwriteInPlace_of_length_eq bs vs (by simpa using h)
    simp [overwriteInPlace, ih]
  | [], _ :: _, h => by simp at h
  | _ :: _, [], h => by simp at h

/-- A successful overwrite in place yields the source and keeps the length of the buffer. -/
theorem overwriteInPlace_some {α : Type} :
    ∀ (buf src r : List α), overwriteInPlace buf src = some r → r = src ∧ r.length = buf.length
  | [], [], r, h => by
    simp [overwriteInPlace] at h
    subst h
    exact ⟨rfl, rfl⟩
  | _ :: bs, v :: vs, r, h => by
    simp only [overwriteInPlace, Option.map_eq_some'] at h
    obtain ⟨r1, h1, h2⟩ := h
    obtain ⟨e1, e2⟩ := overwriteInPlace_some bs vs r1 h1
    subst h2
    subst e1
    simp [e2]
  | [], _ :: _, r, h => by simp [overwriteInPlace] at h
  | _ :: _, [], r, h => by simp [overwriteInPlace] at h

/-- Publish succeeds when the snapshot arrays have the actor's component counts, and
then the snapshot is the authoritative state and no other member is written. -/
theorem UpdateSimDataBuffer_of_sizedFor (g : GfxActor) (a : Actor) (h : sizedFor g a) :
    UpdateSimDataBuffer g a = some { g with m_simbuf := a.ar_tracked } := by
  obtain ⟨h1, h2, h3, h4, h5⟩ := h
  simp [UpdateSimDataBuffer, overwriteInPlace_of_length_eq _ _ h1,
    overwriteInPlace_of_length_eq _ _ h2, overwriteInPlace_of_length_eq _ _ h3,
    overwriteInPlace_of_length_eq _ _ h4, overwriteInPlace_of_length_eq _ _ h5]

/-- A publish that returns was called with matching array lengths. -/
theorem sizedFor_of_UpdateSimDataBuffer (g g1 : GfxActor) (a : Actor)
    (h : UpdateSimDataBuffer g a = some g1) : sizedFor g a := by
  simp only [UpdateSimDataBuffer, Option.bind_eq_bind, Option.bind_eq_some,
    Option.pure_def] at h
  obtain ⟨r1, e1, r2, e2, r3, e3, r4, e4, r5, e5, _⟩ := h
  have p1 := overwriteInPlace_some _ _ _ e1
  have p2 := overwriteInPlace_some _ _ _ e2
  have p3 := overwriteInPlace_some _ _ _ e3
  have p4 := overwriteInPlace_some _ _ _ e4
  have p5 := overwriteInPlace_some _ _ _ e5
  refine ⟨?_, ?_, ?_, ?_, ?_⟩
  · rw [← p1.2, p1.1]
  · rw [← p2.2, p2.1]
  · rw [← p3.2, p3.1]
  · rw [← p4.2, p4.1]
  · rw [← p5.2, p5.1]

/-- C3: when publish (`UpdateSimDataBuffer`) is called on a `GfxActor` whose snapshot
arrays were sized to the actor's component counts, it returns, and immediately
afterwards the snapshot equals the authoritative state of the actor at the time of
the call, field by field (equality of the two records). -/
theorem UpdateSimDataBuffer_snapshot_eq_actor (g : GfxActor) (a : Actor) (h : sizedFor g a) :
    ∃ g1 : GfxActor, UpdateSimDataBuffer g a = some g1
      ∧ (GetSimDataBuffer g1).1 = a.ar_tracked
      ∧ (GetSimNodeBuffer g1).1 = a.ar_tracked.simbuf_nodes :=
  ⟨{ g with m_simbuf := a.ar_tracked }, UpdateSimDataBuffer_of_sizedFor g a h, rfl, rfl⟩

/-- Witness for C3: publish on the spawned sample actor from the moving sample state. -/
theorem UpdateSimDataBuffer_snapshot_eq_actor_witness :
    sizedFor (spawnedGfxActor ⟨0, 0, 0, 0⟩) (movingActor ⟨0, 0, 0, 0⟩)
    ∧ ∃ g1 : GfxActor,
        UpdateSimDataBuffer (spawnedGfxActor ⟨0, 0, 0, 0⟩) (movingActor ⟨0, 0, 0, 0⟩) = some g1
        ∧ (GetSimDataBuffer g1).1 = (movingActor ⟨0, 0, 0, 0⟩).ar_tracked
        ∧ (GetSimNodeBuffer g1).1 = (movingActor ⟨0, 0, 0, 0⟩).ar_tracked.simbuf_nodes :=
  ⟨⟨rfl, rfl, rfl, rfl, rfl⟩,
   UpdateSimDataBuffer_snapshot_eq_actor (spawnedGfxActor ⟨0, 0, 0, 0⟩)
     (movingActor ⟨0, 0, 0, 0⟩) ⟨rfl, rfl, rfl, rfl, rfl⟩⟩

/-- An operation that returns keeps the lengths of the node array and of the four
per-subsystem arrays. -/
theorem Op_apply_lengths (g g1 : GfxActor) (op : Op) (h : Op.apply g op = some g1) :
    g1.m_simbuf.simbuf_nodes.length = g.m_simbuf.simbuf_nodes.length
    ∧ SimBuffer.arrayLengths g1.m_simbuf = SimBuffer.arrayLengths g.m_simbuf := by
  cases op with
  | UpdateSimDataBuffer a =>
    have hs := sizedFor_of_UpdateSimDataBuffer g g1 a h
    have he := UpdateSimDataBuffer_of_sizedFor g a hs
    simp only [Op.apply] at h
    rw [he] at h
    cases h
    obtain ⟨h1, h2, h3, h4, h5⟩ := hs
    simp [SimBuffer.arrayLengths, h1, h2, h3, h4, h5]
  | SetDebugView dv => cases h; exact ⟨rfl, rfl⟩
  | ToggleDebugView =>
    simp only [Op.apply, Option.some.injEq] at h
    subst h
    unfold ToggleDebugView
    split <;> exact ⟨rfl, rfl⟩
  | _ => cases h; exact ⟨rfl, rfl⟩

/-- An operation that does not return is a publish whose source lengths do not match. -/
theorem Op_apply_none (g : GfxActor) (op : Op) (h : Op.apply g op = none) :
    ∃ a : Actor, op = Op.UpdateSimDataBuffer a ∧ ¬ sizedFor g a := by
  cases op with
  | UpdateSimDataBuffer a =>
    refine ⟨a, rfl, fun hs => ?_⟩
    simp [Op.apply, UpdateSimDataBuffer_of_sizedFor g a hs] at h
  | _ => simp [Op.apply] at h

/-- Whether the arrays match an actor depends on the array lengths only. -/
theorem sizedFor_congr (g g1 : GfxActor) (a : Actor)
    (hn : g1.m_simbuf.simbuf_nodes.length = g.m_simbuf.simbuf_nodes.length)
    (hl : SimBuffer.arrayLengths g1.m_simbuf = SimBuffer.arrayLengths g.m_simbuf) :
    sizedFor g1 a ↔ sizedFor g a := by
  simp only [SimBuffer.arrayLengths, Prod.mk.injEq] at hl
  obtain ⟨h2, h3, h4, h5⟩ := hl
  simp only [sizedFor, hn, h2, h3, h4, h5]

/-- Lengths are kept by every run that returns, and a run that does not return
contains a publish whose source lengths do not match those of the initial object. -/
theorem run_lengths (ops : List Op) : ∀ g : GfxActor,
    match run g ops with
    | some g1 =>
        g1.m_simbuf.simbuf_nodes.length = g.m_simbuf.simbuf_nodes.length
        ∧ SimBuffer.arrayLengths g1.m_simbuf = SimBuffer.arrayLengths g.m_simbuf
    | none => ∃ a : Actor, Op.UpdateSimDataBuffer a ∈ ops ∧ ¬ sizedFor g a := by
  induction ops with
  | nil => intro g; exact ⟨rfl, rfl⟩
  | cons op ops ih =>
    intro g
    cases hop : Op.apply g op with
    | none =>
      obtain ⟨a, ha, hs⟩ := Op_apply_none g op hop
      simp only [run, hop, Option.none_bind]
      exact ⟨a, by simp [ha], hs⟩
    | some g1 =>
      obtain ⟨hn, hl⟩ := Op_apply_lengths g g1 op hop
      have ih1 := ih g1
      simp only [run, hop, Option.some_bind]
      cases hr : run g1 ops with
      | none =>
        rw [hr] at ih1
        obtain ⟨a, ha, hs⟩ := ih1
        exact ⟨a, List.mem_cons_of_mem _ ha, fun h => hs ((sizedFor_congr g g1 a hn hl).mpr h)⟩
      | some g2 =>
        rw [hr] at ih1
        exact ⟨ih1.1.trans hn, ih1.2.trans hl⟩

/-- C4: the lengths of `simbuf_screwprops`, `simbuf_commandkey`, `simbuf_aeroengines`
and `simbuf_airbrakes` are invariant: after any finite sequence of operations
(publish, `GetSimDataBuffer`, `GetSimNodeBuffer`, `AddFlexbody`, `InitializeActor`,
the debug-view operations) the four lengths are those the object started with; the
only way a sequence fails to run to its end is a publish from a source of other
lengths (a contract violation); `GetSimDataBuffer` leaves the object as it is; and a
publish that returns made each array equal, element by element, to its source. -/
theorem SimBuffer_array_lengths_invariant (g : GfxActor) (ops : List Op) :
    (match run g ops with
      | some g1 => SimBuffer.arrayLengths g1.m_simbuf = SimBuffer.arrayLengths g.m_simbuf
      | none => ∃ a : Actor, Op.UpdateSimDataBuffer a ∈ ops ∧ ¬ sizedFor g a)
    ∧ (GetSimDataBuffer g).2 = g
    ∧ SimBuffer.arrayLengths (GetSimDataBuffer g).1 = SimBuffer.arrayLengths g.m_simbuf
    ∧ (∀ a : Actor,
        match UpdateSimDataBuffer g a with
        | some g1 =>
            SimBuffer.arrayLengths g1.m_simbuf = SimBuffer.arrayLengths g.m_simbuf
            ∧ g1.m_simbuf.simbuf_screwprops = a.ar_tracked.simbuf_screwprops
            ∧ g1.m_simbuf.simbuf_commandkey = a.ar_tracked.simbuf_commandkey
            ∧ g1.m_simbuf.simbuf_aeroengines = a.ar_tracked.simbuf_aeroengines
            ∧ g1.m_simbuf.simbuf_airbrakes = a.ar_tracked.simbuf_airbrakes
        | none => ¬ sizedFor g a) := by
  refine ⟨?_, rfl, rfl, ?_⟩
  · have h := run_lengths ops g
    cases hr : run g ops with
    | none => rw [hr] at h; exact h
    | some g1 => rw [hr] at h; exact h.2
  · intro a
    cases hp : UpdateSimDataBuffer g a with
    | none =>
      intro hs
      rw [UpdateSimDataBuffer_of_sizedFor g a hs] at hp
      cases hp
    | some g1 =>
      have hs := sizedFor_of_UpdateSimDataBuffer g g1 a hp
      rw [UpdateSimDataBuffer_of_sizedFor g a hs] at hp
      cases hp
      obtain ⟨h1, h2, h3, h4, h5⟩ := hs
      simp [SimBuffer.arrayLengths, h2, h3, h4, h5]

end GfxActor

namespace GUIManager

/-- The queued value after a sequence of requests is the value before, or-ed with
every requested value. -/
theorem foldl_RequestGuiCaptureKeyboard_queued (vals : List Bool) : ∀ s : GUIManager,
    (vals.foldl RequestGuiCaptureKeyboard s).m_gui_kb_capture_queued
      = (s.m_gui_kb_capture_queued || vals.any id) := by
  induction vals with
  | nil => intro s; simp
  | cons v vs ih =>
    intro s
    rw [List.foldl_cons, ih]
    simp [RequestGuiCaptureKeyboard, Bool.or_assoc]

/-- C10: for a frame that starts with `NewImGuiFrame`, continues with the calls
`RequestGuiCaptureKeyboard(v_1)`, ..., `RequestGuiCaptureKeyboard(v_n)` and ends with
`ApplyGuiCaptureKeyboard`, `IsGuiCaptureKeyboardRequested()` afterwards is
`v_1 || ... || v_n`: false when there is no request, and true as soon as one request
passes true, whatever is requested before or after it. -/
theorem captureFrame_requested_eq_or (overlayNewFrame : CFloat → ImGuiIO → ImGuiIO)
    (kb : Keyboard) (dt : CFloat) (s : GUIManager) (vals : List Bool) :
    IsGuiCaptureKeyboardRequested (captureFrame overlayNewFrame kb dt vals s) = vals.any id
    ∧ IsGuiCaptureKeyboardRequested (captureFrame overlayNewFrame kb dt [] s) = false
    ∧ (∀ before after : List Bool,
        IsGuiCaptureKeyboardRequested
          (captureFrame overlayNewFrame kb dt (before ++ true :: after) s) = true)
    ∧ IsGuiCaptureKeyboardRequested (captureFrame overlayNewFrame kb dt [true, false] s) = true := by
  have key : ∀ vs : List Bool,
      IsGuiCaptureKeyboardRequested (captureFrame overlayNewFrame kb dt vs s) = vs.any id := by
    intro vs
    simp [captureFrame, ApplyGuiCaptureKeyboard, IsGuiCaptureKeyboardRequested,
      foldl_RequestGuiCaptureKeyboard_queued, NewImGuiFrame]
  refine ⟨key vals, ?_, ?_, ?_⟩
  · rw [key]; rfl
  · intro before after
    rw [key]
    simp
  · rw [key]; rfl

end GUIManager

namespace GUIManager

open MouseCursorVisibility

/-- C11: the effective keyboard-capture value is persistent. It is left as it is by
`RequestGuiCaptureKeyboard` (any argument), by `NewImGuiFrame` and by the cursor
operations; `ApplyGuiCaptureKeyboard` is the operation that sets it, to the queued
value, and it leaves the queued value as it is. -/
theorem capture_requested_persistent (overlayNewFrame : CFloat → ImGuiIO → ImGuiIO)
    (kb : Keyboard) (dt : CFloat) (s : GUIManager) (val : Bool) (now : Nat)
    (visi : MouseCursorVisibility) :
    IsGuiCaptureKeyboardRequested (RequestGuiCaptureKeyboard s val)
      = IsGuiCaptureKeyboardRequested s
    ∧ IsGuiCaptureKeyboardRequested (NewImGuiFrame overlayNewFrame kb dt s)
      = IsGuiCaptureKeyboardRequested s
    ∧ IsGuiCaptureKeyboardRequested (ApplyGuiCaptureKeyboard s) = s.m_gui_kb_capture_queued
    ∧ (ApplyGuiCaptureKeyboard s).m_gui_kb_capture_queued = s.m_gui_kb_capture_queued
    ∧ IsGuiCaptureKeyboardRequested (SupressCursor s val) = IsGuiCaptureKeyboardRequested s
    ∧ IsGuiCaptureKeyboardRequested (SetMouseCursorVisibility s visi)
      = IsGuiCaptureKeyboardRequested s
    ∧ IsGuiCaptureKeyboardRequested (UpdateMouseCursorVisibility s now)
      = IsGuiCaptureKeyboardRequested s
    ∧ IsGuiCaptureKeyboardRequested (WakeUpGUI s now) = IsGuiCaptureKeyboardRequested s := by
  refine ⟨rfl, rfl, rfl, rfl, rfl, ?_, ?_, ?_⟩
  · cases visi <;> rfl
  · unfold UpdateMouseCursorVisibility
    split <;> rfl
  · unfold WakeUpGUI
    simp only []
    split <;> rfl

/-- A call of `WakeUpGUI`, `UpdateMouseCursorVisibility` or
`SetMouseCursorVisibility(HIDDEN)` on a manager whose cursor is suppressed and not
drawn leaves it suppressed and not drawn. -/
theorem IdleCall_apply_keeps_suppressed (s : GUIManager) (c : IdleCall)
    (h1 : s.m_is_cursor_supressed = true) (h2 : cursorDrawn s = false) :
    (IdleCall.apply s c).m_is_cursor_supressed = true
    ∧ cursorDrawn (IdleCall.apply s c) = false := by
  unfold cursorDrawn at h2 ⊢
  cases c with
  | WakeUpGUI now =>
    simp [IdleCall.apply, WakeUpGUI, h1, h2]
  | UpdateMouseCursorVisibility now =>
    simp only [IdleCall.apply, UpdateMouseCursorVisibility]
    split
    · exact ⟨h1, rfl⟩
    · exact ⟨h1, h2⟩
  | SetHidden => exact ⟨h1, rfl⟩

/-- The same, for a finite sequence of such calls. -/
theorem IdleCall_foldl_keeps_suppressed (calls : List IdleCall) : ∀ s : GUIManager,
    s.m_is_cursor_supressed = true → cursorDrawn s = false →
    (calls.foldl IdleCall.apply s).m_is_cursor_supressed = true
    ∧ cursorDrawn (calls.foldl IdleCall.apply s) = false := by
  induction calls with
  | nil => intro s h1 h2; exact ⟨h1, h2⟩
  | cons c cs ih =>
    intro s h1 h2
    obtain ⟨k1, k2⟩ := IdleCall_apply_keeps_suppressed s c h1 h2
    exact ih _ k1 k2

/-- C12: after `SetMouseCursorVisibility(SUPRESSED)` the cursor is not drawn, and it
stays not drawn (and suppressed) through every finite sequence of `WakeUpGUI`,
`UpdateMouseCursorVisibility` and `SetMouseCursorVisibility(HIDDEN)` calls; an
explicit `SetMouseCursorVisibility(VISIBLE)` afterwards draws it again and lifts
the suppression. -/
theorem suppressed_cursor_stays_hidden (s : GUIManager) (calls : List IdleCall) :
    cursorDrawn (SetMouseCursorVisibility s SUPRESSED) = false
    ∧ cursorDrawn (calls.foldl IdleCall.apply (SetMouseCursorVisibility s SUPRESSED)) = false
    ∧ (calls.foldl IdleCall.apply (SetMouseCursorVisibility s SUPRESSED)).m_is_cursor_supressed
        = true
    ∧ cursorDrawn (SetMouseCursorVisibility
        (calls.foldl IdleCall.apply (SetMouseCursorVisibility s SUPRESSED)) VISIBLE) = true
    ∧ (SetMouseCursorVisibility
        (calls.foldl IdleCall.apply (SetMouseCursorVisibility s SUPRESSED)) VISIBLE
        ).m_is_cursor_supressed = false := by
  have h := IdleCall_foldl_keeps_suppressed calls (SetMouseCursorVisibility s SUPRESSED) rfl rfl
  exact ⟨rfl, h.2, h.1, rfl, rfl⟩

/-- C13 as stated fails: on a manager whose cursor is manually suppressed,
`SetMouseCursorVisibility(HIDDEN)` followed by `WakeUpGUI` leaves the cursor not drawn. -/
theorem hidden_then_wakeup_not_from_every_state :
    ¬ (∀ (s : GUIManager) (now : Nat),
        cursorDrawn (SetMouseCursorVisibility s HIDDEN) = false
        ∧ cursorDrawn (WakeUpGUI (SetMouseCursorVisibility s HIDDEN) now) = true) := by
  intro h
  have h1 := (h suppressedManager 1).2
  revert h1
  decide

/-- C13, amended: from every state `SetMouseCursorVisibility(HIDDEN)` leaves the cursor
not drawn; when the cursor is not manually suppressed the next `WakeUpGUI` makes it
drawn again, and when it is suppressed the cursor stays not drawn: after the
`WakeUpGUI` the cursor is drawn exactly when it was not suppressed. -/
theorem hidden_then_wakeup_when_not_suppressed (s : GUIManager) (now : Nat) :
    cursorDrawn (SetMouseCursorVisibility s HIDDEN) = false
    ∧ (s.m_is_cursor_supressed = false →
        cursorDrawn (WakeUpGUI (SetMouseCursorVisibility s HIDDEN) now) = true)
    ∧ cursorDrawn (WakeUpGUI (SetMouseCursorVisibility s HIDDEN) now)
        = !s.m_is_cursor_supressed := by
  have key : cursorDrawn (WakeUpGUI (SetMouseCursorVisibility s HIDDEN) now)
      = !s.m_is_cursor_supressed := by
    cases h : s.m_is_cursor_supressed <;>
      simp [WakeUpGUI, SetMouseCursorVisibility, SupressCursor, cursorDrawn, h]
  refine ⟨rfl, ?_, key⟩
  intro h
  rw [key, h]
  rfl

/-- Witness for the amended C13: a fresh manager, woken up at clock reading 10, and
the suppressed sample manager, for which HIDDEN alone still gives a cursor not drawn. -/
theorem hidden_then_wakeup_when_not_suppressed_witness :
    (construct 0 ⟨false, false, false, false, true⟩).m_is_cursor_supressed = false
    ∧ cursorDrawn (SetMouseCursorVisibility (construct 0 ⟨false, false, false, false, true⟩)
        HIDDEN) = false
    ∧ cursorDrawn (WakeUpGUI (SetMouseCursorVisibility
        (construct 0 ⟨false, false, false, false, true⟩) HIDDEN) 10) = true
    ∧ cursorDrawn (SetMouseCursorVisibility suppressedManager HIDDEN) = false :=
  ⟨rfl,
   (hidden_then_wakeup_when_not_suppressed
     (construct 0 ⟨false, false, false, false, true⟩) 10).1,
   (hidden_then_wakeup_when_not_suppressed
     (construct 0 ⟨false, false, false, false, true⟩) 10).2.1 rfl,
   (hidden_then_wakeup_when_not_suppressed suppressedManager 10).1⟩

/-- C14: `UpdateMouseCursorVisibility` makes the cursor not drawn when more than 5000
milliseconds have elapsed since the timer was last reset, leaves the drawn flag as it
is when 5000 milliseconds or less have elapsed, and never changes the
manually-suppressed flag; so a cursor made visible by `WakeUpGUI` at reading `t0` is
drawn after an update at reading `t1` exactly when `t1 - t0` is at most 5000. -/
theorem UpdateMouseCursorVisibility_threshold (s : GUIManager) (t0 t1 : Nat) :
    cursorDrawn (UpdateMouseCursorVisibility s t1)
      = (if t1 - s.m_last_mousemove_time > 5000 then false else cursorDrawn s)
    ∧ (UpdateMouseCursorVisibility s t1).m_is_cursor_supressed = s.m_is_cursor_supressed
    ∧ (UpdateMouseCursorVisibility s t1).m_last_mousemove_time = s.m_last_mousemove_time
    ∧ (WakeUpGUI s t0).m_last_mousemove_time = t0
    ∧ cursorDrawn (UpdateMouseCursorVisibility
        (WakeUpGUI (SetMouseCursorVisibility s VISIBLE) t0) t1) = decide (t1 - t0 ≤ 5000)
    ∧ cursorDrawn (UpdateMouseCursorVisibility
        (WakeUpGUI (SetMouseCursorVisibility s VISIBLE) 0) 5000) = true
    ∧ cursorDrawn (UpdateMouseCursorVisibility
        (WakeUpGUI (SetMouseCursorVisibility s VISIBLE) 0) 5001) = false := by
  have key : ∀ a b : Nat, cursorDrawn (UpdateMouseCursorVisibility
      (WakeUpGUI (SetMouseCursorVisibility s VISIBLE) a) b) = decide (b - a ≤ 5000) := by
    intro a b
    by_cases hb : b - a > 5000
    · have hn : ¬ (b - a ≤ 5000) := by omega
      simp [UpdateMouseCursorVisibility, getMilliseconds, WakeUpGUI, SetMouseCursorVisibility,
        SupressCursor, cursorDrawn, hb, hn]
    · have hn : b - a ≤ 5000 := by omega
      have hlt : ¬ (5000 < b - a) := by omega
      simp [UpdateMouseCursorVisibility, getMilliseconds, WakeUpGUI, SetMouseCursorVisibility,
        SupressCursor, cursorDrawn, hn, hlt]
  refine ⟨?_, ?_, ?_, ?_, key t0 t1, ?_, ?_⟩
  · unfold UpdateMouseCursorVisibility getMilliseconds
    split <;> rfl
  · unfold UpdateMouseCursorVisibility
    split <;> rfl
  · unfold UpdateMouseCursorVisibility
    split <;> rfl
  · unfold WakeUpGUI
    simp only []
    split <;> rfl
  · rw [key]; decide
  · rw [key]; decide

end GUIManager

namespace GfxActor

/-- The flag after a sequence of calls of member functions defined in `GfxActor.h`
is the flag before, or-ed with whether `InitializeActor` was among the calls. -/
theorem foldl_InlineOp_initialized (ops : List InlineOp) : ∀ g : GfxActor,
    IsActorInitialized (ops.foldl InlineOp.apply g)
      = (IsActorInitialized g || ops.any InlineOp.isInitializeActor) := by
  induction ops with
  | nil => intro g; simp
  | cons op ops ih =>
    intro g
    rw [List.foldl_cons, ih]
    cases op <;> simp [InlineOp.apply, InlineOp.isInitializeActor, IsActorInitialized,
      InitializeActor, AddFlexbody, GetSimDataBuffer, GetSimNodeBuffer]

/-- C20: the initialized flag is monotone. After `InitializeActor`,
`IsActorInitialized()` is true; `InitializeActor` is idempotent and leaves every
member other than `m_initialized` as it was; and after any finite sequence of calls
of member functions defined in `GfxActor.h` the flag is the flag before or-ed with
"`InitializeActor` was called", so it is never set back to false. -/
theorem IsActorInitialized_monotone (g : GfxActor) (ops : List InlineOp) :
    IsActorInitialized (InitializeActor g) = true
    ∧ InitializeActor (InitializeActor g) = InitializeActor g
    ∧ ((InitializeActor g).m_actor = g.m_actor
      ∧ (InitializeActor g).m_custom_resource_group = g.m_custom_resource_group
      ∧ (InitializeActor g).m_vidcam_state = g.m_vidcam_state
      ∧ (InitializeActor g).m_debug_view = g.m_debug_view
      ∧ (InitializeActor g).m_last_debug_view = g.m_last_debug_view
      ∧ (InitializeActor g).m_flexbodies = g.m_flexbodies
      ∧ (InitializeActor g).m_driverseat_prop_index = g.m_driverseat_prop_index
      ∧ (InitializeActor g).m_beaconlight_active = g.m_beaconlight_active
      ∧ (InitializeActor g).m_prop_anim_crankfactor_prev = g.m_prop_anim_crankfactor_prev
      ∧ (InitializeActor g).m_prop_anim_shift_timer = g.m_prop_anim_shift_timer
      ∧ (InitializeActor g).m_prop_anim_prev_gear = g.m_prop_anim_prev_gear
      ∧ (InitializeActor g).m_simbuf = g.m_simbuf)
    ∧ IsActorInitialized (ops.foldl InlineOp.apply g)
        = (IsActorInitialized g || ops.any InlineOp.isInitializeActor)
    ∧ IsActorInitialized (ops.foldl InlineOp.apply (InitializeActor g)) = true := by
  refine ⟨rfl, rfl, ⟨rfl, rfl, rfl, rfl, rfl, rfl, rfl, rfl, rfl, rfl, rfl, rfl⟩,
    foldl_InlineOp_initialized ops g, ?_⟩
  rw [foldl_InlineOp_initialized]
  rfl

/-- One modelled operation that returns leaves the flag as it is or, for
`InitializeActor`, sets it. -/
theorem Op_apply_initialized (g g1 : GfxActor) (op : Op) (h : Op.apply g op = some g1) :
    g1.m_initialized = (g.m_initialized || op.isInitializeActor) := by
  cases op with
  | UpdateSimDataBuffer a =>
    have hs := sizedFor_of_UpdateSimDataBuffer g g1 a h
    simp only [Op.apply] at h
    rw [UpdateSimDataBuffer_of_sizedFor g a hs] at h
    cases h
    simp [Op.isInitializeActor]
  | ToggleDebugView =>
    simp only [Op.apply, Option.some.injEq] at h
    subst h
    unfold ToggleDebugView
    split <;> simp [Op.isInitializeActor]
  | InitializeActor => cases h; simp [Op.isInitializeActor, GfxActor.InitializeActor]
  | _ => cases h; simp [Op.isInitializeActor, GfxActor.AddFlexbody, GfxActor.GetSimDataBuffer,
      GfxActor.GetSimNodeBuffer, GfxActor.SetDebugView, GfxActor.CycleDebugViews]

/-- The same monotonicity over runs that include the modelled publish and debug-view
operations: a run that returns from an initialized object ends initialized. -/
theorem run_keeps_initialized (ops : List Op) : ∀ g g1 : GfxActor,
    g.m_initialized = true → run g ops = some g1 → g1.m_initialized = true := by
  induction ops with
  | nil =>
    intro g g1 hg h
    simp only [run, Option.some.injEq] at h
    subst h
    exact hg
  | cons op ops ih =>
    intro g g1 hg h
    cases hop : Op.apply g op with
    | none => simp [run, hop] at h
    | some g2 =>
      simp only [run, hop, Option.some_bind] at h
      have h2 := Op_apply_initialized g g2 op hop
      rw [hg] at h2
      exact ih g2 g1 (by simpa using h2) h

end GfxActor

namespace GameScript

/-- Without the dependency, seven of the eight getters return the zero value of
their type and issue no effect; `getGroundHeight` returns -1. -/
theorem getters_without_dependency (e : Env) (v : Vector3) :
    getPersonPosition { e with GetPlayerCharacter := none } = Outcome.done Vector3.ZERO []
    ∧ getPersonRotation { e with GetPlayerCharacter := none } = Outcome.done 0 []
    ∧ getWaterHeight { e with GetSimTerrain := none } = Outcome.done 0 []
    ∧ getGravity { e with GetSimTerrain := none } = Outcome.done 0 []
    ∧ getCameraPosition { e with GetCameraNode := none } = Outcome.done Vector3.ZERO []
    ∧ getCameraDirection { e with GetCameraNode := none } = Outcome.done Vector3.ZERO []
    ∧ getCameraOrientation { e with GetCameraNode := none } = Outcome.done Quaternion.ZERO []
    ∧ getGroundHeight { e with GetSimTerrain := none } v = Outcome.done (-1) [] :=
  ⟨rfl, rfl, rfl, rfl, rfl, rfl, rfl, rfl⟩

/-- C15 (code defect): with no terrain loaded, `getGroundHeight` returns -1 and not
the zero value, while it logs nothing; its siblings `getGravity` and `getWaterHeight`
return 0 in the same environment. -/
theorem getGroundHeight_without_terrain :
    getGroundHeight menuEnv ⟨0, 0, 0⟩ = Outcome.done (-1) []
    ∧ getGroundHeight menuEnv ⟨0, 0, 0⟩ ≠ Outcome.done 0 []
    ∧ getGravity menuEnv = Outcome.done 0 []
    ∧ getWaterHeight menuEnv = Outcome.done 0 [] := by
  refine ⟨rfl, ?_, rfl, rfl⟩
  intro h
  have h1 : getGroundHeight menuEnv ⟨0, 0, 0⟩ = Outcome.done (-1) [] := rfl
  rw [h1] at h
  injection h with h2 _
  norm_num at h2

/-- With no terrain loaded, the five guarded operations log one warning and issue no
call, while `repairVehicle` and `clearEventCache` dereference the null terrain. -/
theorem terrain_operations_without_terrain (e : Env) (value : CFloat)
    (objectName instanceName box eventhandler : String) (pos rot : Vector3)
    (uniquifyMaterials keepPosition : Bool) :
    setWaterHeight { e with GetSimTerrain := none } value
      = Outcome.done () [Effect.SLOG "[RoR|Script] Cannot execute 'setWaterHeight', terrain not ready"]
    ∧ setGravity { e with GetSimTerrain := none } value
      = Outcome.done () [Effect.SLOG "[RoR|Script] Cannot execute 'setGravity', terrain not ready"]
    ∧ destroyObject { e with GetSimTerrain := none } instanceName
      = Outcome.done () [Effect.SLOG "[RoR|Script] Cannot execute 'destroyObject', terrain not ready"]
    ∧ MoveTerrainObjectVisuals { e with GetSimTerrain := none } instanceName pos
      = Outcome.done ()
          [Effect.SLOG "[RoR|Script] Cannot execute 'MoveTerrainObjectVisuals', terrain not ready"]
    ∧ spawnObject { e with GetSimTerrain := none } objectName instanceName pos rot eventhandler
        uniquifyMaterials
      = Outcome.done () [Effect.SLOG "[RoR|Script] Cannot execute 'spawnObject', terrain not ready"]
    ∧ repairVehicle { e with GetSimTerrain := none } instanceName box keepPosition
      = Outcome.fault Fault.nullDereference
    ∧ clearEventCache { e with GetSimTerrain := none } = Outcome.fault Fault.nullDereference :=
  ⟨rfl, rfl, rfl, rfl, rfl, rfl, rfl⟩

/-- C16 (code defect): called with no terrain loaded, `repairVehicle` and
`clearEventCache` dereference the null terrain pointer instead of logging a warning
and returning, while `setGravity` in the same environment logs the warning and
issues no call. -/
theorem repairVehicle_clearEventCache_without_terrain :
    repairVehicle menuEnv "inst" "box" false = Outcome.fault Fault.nullDereference
    ∧ clearEventCache menuEnv = Outcome.fault Fault.nullDereference
    ∧ setGravity menuEnv 5
      = Outcome.done () [Effect.SLOG "[RoR|Script] Cannot execute 'setGravity', terrain not ready"] :=
  ⟨rfl, rfl, rfl⟩

/-- C17: each avatar mutator called while the player avatar is absent, and each
camera mutator called while the main camera is absent, returns after logging exactly
one line, `Cannot execute '<function name>', player avatar not ready` or
`..., main camera not ready` (behind the log tag), and issues no call on the avatar
or the camera node. -/
theorem mutators_without_avatar_or_camera (e : Env) (vec : Vector3) (rot : CFloat)
    (q : Quaternion) :
    setPersonPosition { e with GetPlayerCharacter := none } vec
      = Outcome.done ()
          [Effect.SLOG "[RoR|Script] Cannot execute 'setPersonPosition', player avatar not ready"]
    ∧ movePerson { e with GetPlayerCharacter := none } vec
      = Outcome.done ()
          [Effect.SLOG "[RoR|Script] Cannot execute 'movePerson', player avatar not ready"]
    ∧ setPersonRotation { e with GetPlayerCharacter := none } rot
      = Outcome.done ()
          [Effect.SLOG "[RoR|Script] Cannot execute 'setPersonRotation', player avatar not ready"]
    ∧ setCameraPosition { e with GetCamera := false } vec
      = Outcome.done ()
          [Effect.SLOG "[RoR|Script] Cannot execute 'setCameraPosition', main camera not ready"]
    ∧ setCameraDirection { e with GetCamera := false } vec
      = Outcome.done ()
          [Effect.SLOG "[RoR|Script] Cannot execute 'setCameraDirection', main camera not ready"]
    ∧ setCameraOrientation { e with GetCamera := false } q
      = Outcome.done ()
          [Effect.SLOG "[RoR|Script] Cannot execute 'setCameraOrientation', main camera not ready"]
    ∧ setCameraYaw { e with GetCamera := false } rot
      = Outcome.done ()
          [Effect.SLOG "[RoR|Script] Cannot execute 'setCameraYaw', main camera not ready"]
    ∧ setCameraPitch { e with GetCamera := false } rot
      = Outcome.done ()
          [Effect.SLOG "[RoR|Script] Cannot execute 'setCameraPitch', main camera not ready"]
    ∧ setCameraRoll { e with GetCamera := false } rot
      = Outcome.done ()
          [Effect.SLOG "[RoR|Script] Cannot execute 'setCameraRoll', main camera not ready"]
    ∧ cameraLookAt { e with GetCamera := false } vec
      = Outcome.done ()
          [Effect.SLOG "[RoR|Script] Cannot execute 'cameraLookAt', main camera not ready"]
    ∧ calls [Effect.SLOG "[RoR|Script] Cannot execute 'cameraLookAt', main camera not ready"] = []
    ∧ ∀ line : String, calls [Effect.SLOG line] = [] ∧ logged [Effect.SLOG line] = [line] :=
  ⟨rfl, rfl, rfl, rfl, rfl, rfl, rfl, rfl, rfl, rfl, rfl, fun _ => ⟨rfl, rfl⟩⟩

/-- Three forms of outcome of `getSafeTextureUnitState`: a fault; code 0 with `*tu`
written to the unit at the given indices and nothing logged; or a non-zero code
with `*tu` not written and no call issued. -/
theorem getSafeTextureUnitState_cases (e : Env) (tu : Option TuPtr) (materialName : String)
    (techniqueNum passNum textureUnitNum : Int) :
    (∃ f, getSafeTextureUnitState e tu materialName techniqueNum passNum textureUnitNum
        = Outcome.fault f)
    ∨ getSafeTextureUnitState e tu materialName techniqueNum passNum textureUnitNum
        = Outcome.done (0, some ⟨materialName, techniqueNum.toNat, passNum.toNat,
            textureUnitNum.toNat⟩) []
    ∨ (∃ res effects, res ≠ 0
        ∧ getSafeTextureUnitState e tu materialName techniqueNum passNum textureUnitNum
          = Outcome.done (res, tu) effects
        ∧ calls effects = []) := by
  unfold getSafeTextureUnitState
  simp only []
  split
  · exact Or.inr (Or.inr ⟨1, _, by decide, rfl, rfl⟩)
  · exact Or.inr (Or.inr ⟨1, _, by decide, rfl, rfl⟩)
  · split
    · exact Or.inr (Or.inr ⟨2, _, by decide, rfl, rfl⟩)
    · split
      · exact Or.inl ⟨_, rfl⟩
      · exact Or.inr (Or.inr ⟨1, _, by decide, rfl, rfl⟩)
      · exact Or.inr (Or.inr ⟨2, _, by decide, rfl, rfl⟩)
      · split
        · exact Or.inr (Or.inr ⟨3, _, by decide, rfl, rfl⟩)
        · split
          · exact Or.inl ⟨_, rfl⟩
          · exact Or.inr (Or.inr ⟨1, _, by decide, rfl, rfl⟩)
          · exact Or.inr (Or.inr ⟨3, _, by decide, rfl, rfl⟩)
          · split
            · exact Or.inr (Or.inr ⟨4, _, by decide, rfl, rfl⟩)
            · split
              · exact Or.inl ⟨_, rfl⟩
              · exact Or.inr (Or.inr ⟨1, _, by decide, rfl, rfl⟩)
              · exact Or.inr (Or.inr ⟨4, _, by decide, rfl, rfl⟩)
              · exact Or.inr (Or.inl rfl)

/-- An index that the list serves is below its length. -/
theorem lt_length_of_getElem? {α : Type} {xs : List α} {i : Nat} {a : α}
    (h : xs[i]? = some a) : i < xs.length := by
  by_contra hc
  rw [List.getElem?_eq_none (by omega)] at h
  cases h

/-- An index that the list serves is served by the library accessor. -/
theorem libAt_of_getElem? {α : Type} (oob : OutOfRange) {xs : List α} {i : Nat} {a : α}
    (h : xs[i]? = some a) : libAt oob xs i = LibResult.ptr a := by
  unfold libAt
  rw [h]

/-- Where the claim holds whatever the library does out of range: a missing material
gives 1, a negative index or an index above the count gives the sentinel of its
level, and indexes strictly below the counts give 0 with `*tu` written. -/
theorem getSafeTextureUnitState_outside_the_boundary (e : Env) (tu : Option TuPtr)
    (materialName : String) (m : Material) (t p u : Nat) (i j k : Int)
    (hm : e.getByName materialName = MaterialLookup.found m) :
    (∀ e0 : Env, e0.getByName materialName = MaterialLookup.null →
        getSafeTextureUnitState e0 tu materialName i j k = Outcome.done (1, tu) [])
    ∧ (i < 0 ∨ i > (m.length : Int) →
        getSafeTextureUnitState e tu materialName i j k = Outcome.done (2, tu) [])
    ∧ (∀ tech : Technique, m[t]? = some tech → j < 0 ∨ j > (tech.length : Int) →
        getSafeTextureUnitState e tu materialName t j k = Outcome.done (3, tu) [])
    ∧ (∀ (tech : Technique) (pass : Pass), m[t]? = some tech → tech[p]? = some pass →
        k < 0 ∨ k > (pass.length : Int) →
        getSafeTextureUnitState e tu materialName t p k = Outcome.done (4, tu) [])
    ∧ (∀ (tech : Technique) (pass : Pass) (unit : TextureUnitState),
        m[t]? = some tech → tech[p]? = some pass → pass[u]? = some unit →
        getSafeTextureUnitState e tu materialName t p u
          = Outcome.done (0, some ⟨materialName, t, p, u⟩) []) := by
  refine ⟨?_, ?_, ?_, ?_, ?_⟩
  · intro e0 h0
    simp [getSafeTextureUnitState, h0]
  · intro hi
    simp [getSafeTextureUnitState, hm, hi]
  · intro tech h1 hj
    have l1 := lt_length_of_getElem? h1
    have n1 : ¬ ((t : Int) < 0 ∨ (t : Int) > (m.length : Int)) := by omega
    unfold getSafeTextureUnitState
    simp only [hm, if_neg n1, Int.toNat_ofNat, libAt_of_getElem? _ h1, if_pos hj]
  · intro tech pass h1 h2 hk
    have l1 := lt_length_of_getElem? h1
    have l2 := lt_length_of_getElem? h2
    have n1 : ¬ ((t : Int) < 0 ∨ (t : Int) > (m.length : Int)) := by omega
    have n2 : ¬ ((p : Int) < 0 ∨ (p : Int) > (tech.length : Int)) := by omega
    unfold getSafeTextureUnitState
    simp only [hm, if_neg n1, if_neg n2, Int.toNat_ofNat, libAt_of_getElem? _ h1,
      libAt_of_getElem? _ h2, if_pos hk]
  · intro tech pass unit h1 h2 h3
    have l1 := lt_length_of_getElem? h1
    have l2 := lt_length_of_getElem? h2
    have l3 := lt_length_of_getElem? h3
    have n1 : ¬ ((t : Int) < 0 ∨ (t : Int) > (m.length : Int)) := by omega
    have n2 : ¬ ((p : Int) < 0 ∨ (p : Int) > (tech.length : Int)) := by omega
    have n3 : ¬ ((u : Int) < 0 ∨ (u : Int) > (pass.length : Int)) := by omega
    unfold getSafeTextureUnitState
    simp only [hm, if_neg n1, if_neg n2, if_neg n3, Int.toNat_ofNat, libAt_of_getElem? _ h1,
      libAt_of_getElem? _ h2, libAt_of_getElem? _ h3]

/-- C18 (code defect): the range tests use `>` where `>=` is needed, so an index
equal to the count is handed to the Ogre accessor out of range. For the material
`"flag"` (one technique, one pass, one texture unit) and `techniqueNum = 1` the
function does not return the sentinel 2: it runs into undefined behaviour when the
accessor does not check, returns 1 and logs when the accessor throws, and returns 2
only when the accessor answers null. The same holds for `passNum = 1` (sentinel 3)
and `textureUnitNum = 1` (sentinel 4). The in-range call returns 0. -/
theorem getSafeTextureUnitState_index_equal_to_count :
    getSafeTextureUnitState (flagEnv OutOfRange.undefinedBehaviour) none "flag" 1 0 0
      = Outcome.fault Fault.indexOutOfRange
    ∧ getSafeTextureUnitState (flagEnv (OutOfRange.throwsException "x")) none "flag" 1 0 0
      = Outcome.done (1, none) [Effect.SLOG "Exception in getSafeTextureUnitState(): x"]
    ∧ getSafeTextureUnitState (flagEnv OutOfRange.returnsNull) none "flag" 1 0 0
      = Outcome.done (2, none) []
    ∧ getSafeTextureUnitState (flagEnv OutOfRange.undefinedBehaviour) none "flag" 0 1 0
      = Outcome.fault Fault.indexOutOfRange
    ∧ getSafeTextureUnitState (flagEnv OutOfRange.undefinedBehaviour) none "flag" 0 0 1
      = Outcome.fault Fault.indexOutOfRange
    ∧ getSafeTextureUnitState (flagEnv OutOfRange.undefinedBehaviour) none "flag" 2 0 0
      = Outcome.done (2, none) []
    ∧ getSafeTextureUnitState (flagEnv OutOfRange.undefinedBehaviour) none "flag" 0 0 0
      = Outcome.done (0, some ⟨"flag", 0, 0, 0⟩) [] := by
  refine ⟨?_, ?_, ?_, ?_, ?_, ?_, ?_⟩ <;> decide

/-- The common body returns the code of `getSafeTextureUnitState` and applies the
setter exactly when that code is 0. -/
theorem withTextureUnit_eq (e : Env) (materialName : String)
    (techniqueNum passNum textureUnitNum : Int) (c : TuPtr → ExtCall) :
    withTextureUnit e materialName techniqueNum passNum textureUnitNum c
      = match getSafeTextureUnitState e none materialName techniqueNum passNum textureUnitNum with
        | Outcome.fault f => Outcome.fault f
        | Outcome.done (res, _) effects =>
            Outcome.done res
              (effects ++
                if res = 0 then
                  [Effect.call (c ⟨materialName, techniqueNum.toNat, passNum.toNat,
                    textureUnitNum.toNat⟩)]
                else []) := by
  unfold withTextureUnit
  rcases getSafeTextureUnitState_cases e none materialName techniqueNum passNum textureUnitNum
    with ⟨f, hf⟩ | hz | ⟨res, effects, hne, hd, _⟩
  · rw [hf]
  · rw [hz]; simp
  · rw [hd]; simp [hne]

/-- C19: each of `setMaterialTextureName`, `setMaterialTextureRotate`,
`setMaterialTextureScroll` and `setMaterialTextureScale` returns the code that
`getSafeTextureUnitState` returns for the same material name and indices, and
issues its setter on the located texture unit exactly when that code is 0; on a
non-zero code it issues no call at all (only what `getSafeTextureUnitState` logged). -/
theorem setMaterialTexture_follows_getSafeTextureUnitState (e : Env) (materialName : String)
    (techniqueNum passNum textureUnitNum : Int) (textureName : String)
    (rotation sx sy su sv : CFloat) :
    match getSafeTextureUnitState e none materialName techniqueNum passNum textureUnitNum with
    | Outcome.fault f =>
        setMaterialTextureName e materialName techniqueNum passNum textureUnitNum textureName
          = Outcome.fault f
        ∧ setMaterialTextureRotate e materialName techniqueNum passNum textureUnitNum rotation
          = Outcome.fault f
        ∧ setMaterialTextureScroll e materialName techniqueNum passNum textureUnitNum sx sy
          = Outcome.fault f
        ∧ setMaterialTextureScale e materialName techniqueNum passNum textureUnitNum su sv
          = Outcome.fault f
    | Outcome.done (res, _) effects =>
        calls effects = []
        ∧ setMaterialTextureName e materialName techniqueNum passNum textureUnitNum textureName
          = Outcome.done res (effects ++
              if res = 0 then
                [Effect.call (ExtCall.TextureUnitState_setTextureName
                  ⟨materialName, techniqueNum.toNat, passNum.toNat, textureUnitNum.toNat⟩
                  textureName)]
              else [])
        ∧ setMaterialTextureRotate e materialName techniqueNum passNum textureUnitNum rotation
          = Outcome.done res (effects ++
              if res = 0 then
                [Effect.call (ExtCall.TextureUnitState_setTextureRotate
                  ⟨materialName, techniqueNum.toNat, passNum.toNat, textureUnitNum.toNat⟩
                  rotation)]
              else [])
        ∧ setMaterialTextureScroll e materialName techniqueNum passNum textureUnitNum sx sy
          = Outcome.done res (effects ++
              if res = 0 then
                [Effect.call (ExtCall.TextureUnitState_setTextureScroll
                  ⟨materialName, techniqueNum.toNat, passNum.toNat, textureUnitNum.toNat⟩
                  sx sy)]
              else [])
        ∧ setMaterialTextureScale e materialName techniqueNum passNum textureUnitNum su sv
          = Outcome.done res (effects ++
              if res = 0 then
                [Effect.call (ExtCall.TextureUnitState_setTextureScale
                  ⟨materialName, techniqueNum.toNat, passNum.toNat, textureUnitNum.toNat⟩
                  su sv)]
              else []) := by
  unfold setMaterialTextureName setMaterialTextureRotate setMaterialTextureScroll
    setMaterialTextureScale
  simp only [withTextureUnit_eq]
  rcases getSafeTextureUnitState_cases e none materialName techniqueNum passNum textureUnitNum
    with ⟨f, hf⟩ | hz | ⟨res, effects, hne, hd, hc⟩
  · rw [hf]
    exact ⟨rfl, rfl, rfl, rfl⟩
  · rw [hz]
    exact ⟨rfl, rfl, rfl, rfl, rfl⟩
  · rw [hd]
    exact ⟨hc, rfl, rfl, rfl, rfl⟩

end GameScript

namespace GUIManager

/-- Occurrences of a call after one more call was issued. -/
theorem count_issue (effect : GuiCall → Gui → Gui) (c d : GuiCall) (f : Frame) :
    (issue effect c f).2.count d = f.2.count d + (if c = d then 1 else 0) := by
  by_cases h : c = d
  · subst h
    simp [issue]
  · have hb : (c == d) = false := by simpa using h
    simp [issue, List.count_cons, hb, h]

/-- Drawing another panel when visible does not change how often a call occurs. -/
theorem count_drawIfVisible (effect : GuiCall → Gui → Gui) (p : Panel) (d : GuiCall) (f : Frame)
    (h : GuiCall.Draw p ≠ d) : (drawIfVisible effect p f).2.count d = f.2.count d := by
  unfold drawIfVisible
  split
  · rw [count_issue]; simp [h]
  · rfl

/-- The common GUI draws neither the chat box nor updates the direction arrow. -/
theorem count_DrawCommonGui (effect : GuiCall → Gui → Gui) (env : AppEnv) (d : GuiCall)
    (f : Frame) (h : ∀ p : Panel, p ≠ Panel.ChatBox → GuiCall.Draw p ≠ d) :
    (DrawCommonGui effect env f).2.count d = f.2.count d := by
  unfold DrawCommonGui
  simp only []
  rw [count_drawIfVisible _ _ _ _ (h _ (by decide)),
    count_drawIfVisible _ _ _ _ (h _ (by decide)),
    count_drawIfVisible _ _ _ _ (h _ (by decide))]
  split
  · rw [count_issue]; simp [h Panel.MpClientList (by decide)]
  · rfl

/-- The part before the chat box issues only draws of other panels. -/
theorem count_beforeChatBox (effect : GuiCall → Gui → Gui) (env : AppEnv)
    (player_gfx_actor : Option Nat) (d : GuiCall) (f : Frame)
    (h : ∀ p : Panel, p ≠ Panel.ChatBox → GuiCall.Draw p ≠ d)
    (h2 : ∀ a : Nat, GuiCall.SimActorStats_Draw a ≠ d) :
    (beforeChatBox effect env player_gfx_actor f).2.count d = f.2.count d := by
  unfold beforeChatBox
  simp only []
  cases player_gfx_actor with
  | none => exact count_DrawCommonGui effect env d f h
  | some a =>
    simp only []
    split
    · rw [count_issue, count_DrawCommonGui effect env d f h]; simp [h2 a]
    · exact count_DrawCommonGui effect env d f h

/-- The part after the chat box issues draws of other panels and one update of the
direction arrow. -/
theorem count_afterChatBox (effect : GuiCall → Gui → Gui) (player_gfx_actor : Option Nat)
    (d : GuiCall) (f : Frame) (h : ∀ p : Panel, p ≠ Panel.ChatBox → GuiCall.Draw p ≠ d) :
    (afterChatBox effect player_gfx_actor f).2.count d
      = f.2.count d + (if GuiCall.DirectionArrow_Update player_gfx_actor = d then 1 else 0) := by
  unfold afterChatBox
  simp only []
  rw [count_issue, count_drawIfVisible _ _ _ _ (h _ (by decide)),
    count_drawIfVisible _ _ _ _ (h _ (by decide)), count_drawIfVisible _ _ _ _ (h _ (by decide)),
    count_drawIfVisible _ _ _ _ (h _ (by decide)), count_drawIfVisible _ _ _ _ (h _ (by decide)),
    count_drawIfVisible _ _ _ _ (h _ (by decide))]

/-- When no callee touches the GUI state, the state at the chat box statement is the
state at the start. -/
theorem beforeChatBox_fst_of_no_effect (env : AppEnv) (player_gfx_actor : Option Nat)
    (f : Frame) : (beforeChatBox (fun _ g => g) env player_gfx_actor f).1 = f.1 := by
  unfold beforeChatBox DrawCommonGui drawIfVisible issue
  simp only []
  cases player_gfx_actor <;> simp only [] <;> repeat' split
  all_goals rfl

/-- C21: `DrawSimGuiBuffered` draws the chat box once when, at the chat box statement,
the console window is not visible and the GUI is not hidden, and not at all
otherwise; the chat box's own visibility flag plays no part; and
`panel_DirectionArrow.Update(player_gfx_actor)` is called exactly once, as the last
call, on every invocation, also when `player_gfx_actor` is null. -/
theorem DrawSimGuiBuffered_chatbox_and_arrow (effect : GuiCall → Gui → Gui) (env : AppEnv)
    (player_gfx_actor : Option Nat) (g : Gui) (v : Bool) :
    (DrawSimGuiBuffered effect env player_gfx_actor (g, [])).2.count (GuiCall.Draw Panel.ChatBox)
      = (if (!IsVisible (beforeChatBox effect env player_gfx_actor (g, [])).1 Panel.ConsoleWindow
            && !IsGuiHidden (beforeChatBox effect env player_gfx_actor (g, [])).1)
          then 1 else 0)
    ∧ (DrawSimGuiBuffered (fun _ g0 => g0) env player_gfx_actor (g, [])).2.count
        (GuiCall.Draw Panel.ChatBox)
      = (if (!IsVisible g Panel.ConsoleWindow && !IsGuiHidden g) then 1 else 0)
    ∧ (DrawSimGuiBuffered (fun _ g0 => g0) env player_gfx_actor
        (SetVisible g Panel.ChatBox v, [])).2.count (GuiCall.Draw Panel.ChatBox)
      = (DrawSimGuiBuffered (fun _ g0 => g0) env player_gfx_actor (g, [])).2.count
        (GuiCall.Draw Panel.ChatBox)
    ∧ (DrawSimGuiBuffered effect env player_gfx_actor (g, [])).2.getLast?
      = some (GuiCall.DirectionArrow_Update player_gfx_actor)
    ∧ (DrawSimGuiBuffered effect env player_gfx_actor (g, [])).2.count
        (GuiCall.DirectionArrow_Update player_gfx_actor) = 1
    ∧ (DrawSimGuiBuffered effect env none (g, [])).2.count (GuiCall.DirectionArrow_Update none)
      = 1 := by
  have hdraw : ∀ p : Panel, p ≠ Panel.ChatBox → GuiCall.Draw p ≠ GuiCall.Draw Panel.ChatBox := by
    intro p hp h
    injection h with h1
    exact hp h1
  have key : ∀ (eff : GuiCall → Gui → Gui) (g1 : Gui),
      (DrawSimGuiBuffered eff env player_gfx_actor (g1, [])).2.count (GuiCall.Draw Panel.ChatBox)
        = (if (!IsVisible (beforeChatBox eff env player_gfx_actor (g1, [])).1 Panel.ConsoleWindow
              && !IsGuiHidden (beforeChatBox eff env player_gfx_actor (g1, [])).1)
            then 1 else 0) := by
    intro eff g1
    have hb := count_beforeChatBox eff env player_gfx_actor (GuiCall.Draw Panel.ChatBox) (g1, [])
      hdraw (by intro a h; cases h)
    unfold DrawSimGuiBuffered
    rw [count_afterChatBox _ _ _ _ hdraw]
    unfold drawChatBox IsGuiHidden
    cases h1 : IsVisible (beforeChatBox eff env player_gfx_actor (g1, [])).1 Panel.ConsoleWindow
      <;> cases h2 : (beforeChatBox eff env player_gfx_actor (g1, [])).1.manager.m_hide_gui
      <;> simp [count_issue, hb]
  have arrow : ∀ a : Option Nat,
      (DrawSimGuiBuffered effect env a (g, [])).2.count (GuiCall.DirectionArrow_Update a)
        = 1 := by
    intro a
    have hd : ∀ p : Panel, p ≠ Panel.ChatBox →
        GuiCall.Draw p ≠ GuiCall.DirectionArrow_Update a := by
      intro p _ h; cases h
    have hb := count_beforeChatBox effect env a (GuiCall.DirectionArrow_Update a) (g, [])
      hd (by intro b h; cases h)
    have hc : (drawChatBox effect (beforeChatBox effect env a (g, []))).2.count
          (GuiCall.DirectionArrow_Update a)
        = (beforeChatBox effect env a (g, [])).2.count (GuiCall.DirectionArrow_Update a) := by
      unfold drawChatBox
      split
      · split
        · rw [count_issue]; simp
        · rfl
      · rfl
    unfold DrawSimGuiBuffered
    rw [count_afterChatBox _ _ _ _ hd, if_pos rfl, hc, hb]
    rfl
  refine ⟨key effect g, ?_, ?_, ?_, arrow player_gfx_actor, arrow none⟩
  · rw [key, beforeChatBox_fst_of_no_effect]
  · rw [key, key, beforeChatBox_fst_of_no_effect, beforeChatBox_fst_of_no_effect]
    rfl
  · simp [DrawSimGuiBuffered, afterChatBox, issue]

/-- C22: when the application state is not SIMULATION, `UpdateInputEvents` negates the
console window's visibility when the console-toggle event fired and leaves it as it
is otherwise; whatever other events fire, no other panel's visibility changes, the
members of the manager (the GUI-hidden flag among them) stay as they are, and no call
is issued on the dashboard overlays or the survey map. -/
theorem UpdateInputEvents_outside_simulation (effect : GuiCall → Gui → Gui) (env : AppEnv)
    (g : Gui) (issued : List GuiCall) :
    (UpdateInputEvents effect { env with app_state_is_SIMULATION := false } (g, issued)).2
      = issued
    ∧ (UpdateInputEvents effect { env with app_state_is_SIMULATION := false } (g, issued)).1.manager
      = g.manager
    ∧ IsGuiHidden
        (UpdateInputEvents effect { env with app_state_is_SIMULATION := false } (g, issued)).1
      = IsGuiHidden g
    ∧ IsVisible
        (UpdateInputEvents effect { env with app_state_is_SIMULATION := false } (g, issued)).1
        Panel.ConsoleWindow
      = (if env.fired InputEvent.EV_COMMON_CONSOLE_TOGGLE then !IsVisible g Panel.ConsoleWindow
          else IsVisible g Panel.ConsoleWindow)
    ∧ ∀ p : Panel, p ≠ Panel.ConsoleWindow →
        IsVisible
          (UpdateInputEvents effect { env with app_state_is_SIMULATION := false } (g, issued)).1 p
        = IsVisible g p := by
  unfold UpdateInputEvents toggleVisible IsGuiHidden
  simp only [Bool.false_eq_true, if_false]
  cases h : env.fired InputEvent.EV_COMMON_CONSOLE_TOGGLE
  · simp
  · refine ⟨by simp, by simp [SetVisible], by simp [SetVisible], by simp [SetVisible, IsVisible],
      ?_⟩
    intro p hp
    simp [SetVisible, IsVisible, hp]

end GUIManager

namespace GameScript

/-- A string read as a C string is a prefix of the string, holds no NUL, and is the
string itself when the string holds no NUL. -/
theorem c_str_spec (s : String) :
    (c_str s).data <+: s.data
    ∧ Char.ofNat 0 ∉ (c_str s).data
    ∧ (Char.ofNat 0 ∉ s.data → c_str s = s) := by
  refine ⟨List.takeWhile_prefix _, ?_, ?_⟩
  · intro h
    have h1 := List.mem_takeWhile_imp h
    simp at h1
  · intro h
    have h1 : s.data.takeWhile (fun c => c != Char.ofNat 0) = s.data := by
      rw [List.takeWhile_eq_self_iff]
      intro x hx
      have hne : x ≠ Char.ofNat 0 := fun hc => h (hc ▸ hx)
      simpa using hne
    show String.mk (s.data.takeWhile (fun c => c != Char.ofNat 0)) = s
    rw [h1]

/-- C23 as stated fails: a button text that is not empty and starts with a NUL
character is passed on neither as itself nor as the placeholder, but as the empty
C string. -/
theorem showMessageBox_not_the_whole_text :
    nulThenX ≠ ""
    ∧ showMessageBox "t" "x" true nulThenX true false ""
      = GUIManager.GuiCall.MessageBox_Show ⟨"t", "x", true, some "", none⟩
    ∧ ¬ (∀ (title text btn1_text btn2_text : String) (use_btn1 allow_close use_btn2 : Bool),
        showMessageBox title text use_btn1 btn1_text allow_close use_btn2 btn2_text
          = GUIManager.GuiCall.MessageBox_Show
              { title := title
                text := text
                allow_close := allow_close
                btn1_text :=
                  if use_btn1 = false then none
                  else if btn1_text = "" then some "~1~" else some btn1_text
                btn2_text :=
                  if use_btn2 = false then none
                  else if btn2_text = "" then some "~2~" else some btn2_text }) := by
  refine ⟨by decide, by decide, ?_⟩
  intro h
  have h1 := h "t" "x" nulThenX "" true true false
  revert h1
  decide

/-- C23, amended: for a title, a text and button texts that hold no NUL character,
`showMessageBox` passes `title`, `text` and `allow_close` on as they are, and the text
passed for button k is null when `use_btn<k>` is false, the placeholder `~k~` when
`use_btn<k>` is true and `btn<k>_text` is empty, and `btn<k>_text` itself otherwise.
In general every text is handed over as a C string (the second conjunct is the
statement for texts without NUL, the first the general one). -/
theorem showMessageBox_sanitizes_buttons (title text btn1_text btn2_text : String)
    (use_btn1 allow_close use_btn2 : Bool) :
    showMessageBox title text use_btn1 btn1_text allow_close use_btn2 btn2_text
      = GUIManager.GuiCall.MessageBox_Show
          { title := c_str title
            text := c_str text
            allow_close := allow_close
            btn1_text :=
              if use_btn1 = false then none
              else if btn1_text = "" then some "~1~" else some (c_str btn1_text)
            btn2_text :=
              if use_btn2 = false then none
              else if btn2_text = "" then some "~2~" else some (c_str btn2_text) }
    ∧ (Char.ofNat 0 ∉ title.data → Char.ofNat 0 ∉ text.data →
        Char.ofNat 0 ∉ btn1_text.data → Char.ofNat 0 ∉ btn2_text.data →
        showMessageBox title text use_btn1 btn1_text allow_close use_btn2 btn2_text
          = GUIManager.GuiCall.MessageBox_Show
              { title := title
                text := text
                allow_close := allow_close
                btn1_text :=
                  if use_btn1 = false then none
                  else if btn1_text = "" then some "~1~" else some btn1_text
                btn2_text :=
                  if use_btn2 = false then none
                  else if btn2_text = "" then some "~2~" else some btn2_text })
    ∧ (∀ s : String, (c_str s).data <+: s.data ∧ Char.ofNat 0 ∉ (c_str s).data)
    ∧ showMessageBox title text false btn1_text allow_close false btn2_text
      = GUIManager.GuiCall.MessageBox_Show ⟨c_str title, c_str text, allow_close, none, none⟩
    ∧ showMessageBox "t" "x" true "" allow_close true ""
      = GUIManager.GuiCall.MessageBox_Show ⟨"t", "x", allow_close, some "~1~", some "~2~"⟩
    ∧ showMessageBox "t" "x" true "Yes" allow_close true "No"
      = GUIManager.GuiCall.MessageBox_Show ⟨"t", "x", allow_close, some "Yes", some "No"⟩ := by
  have main : showMessageBox title text use_btn1 btn1_text allow_close use_btn2 btn2_text
      = GUIManager.GuiCall.MessageBox_Show
          { title := c_str title
            text := c_str text
            allow_close := allow_close
            btn1_text :=
              if use_btn1 = false then none
              else if btn1_text = "" then some "~1~" else some (c_str btn1_text)
            btn2_text :=
              if use_btn2 = false then none
              else if btn2_text = "" then some "~2~" else some (c_str btn2_text) } := by
    unfold showMessageBox GUIManager.ShowMessageBox
    cases use_btn1 <;> cases use_btn2 <;>
      by_cases h1 : btn1_text = "" <;> by_cases h2 : btn2_text = "" <;>
      simp [h1, h2, String.isEmpty_iff]
  refine ⟨main, ?_, fun s => ⟨(c_str_spec s).1, (c_str_spec s).2.1⟩, rfl, ?_, ?_⟩
  · intro ht hx h1 h2
    rw [main, (c_str_spec title).2.2 ht, (c_str_spec text).2.2 hx,
      (c_str_spec btn1_text).2.2 h1, (c_str_spec btn2_text).2.2 h2]
  · cases allow_close <;> decide
  · cases allow_close <;> decide

/-- Witness for the amended C23: texts without NUL are passed on as they are. -/
theorem showMessageBox_sanitizes_buttons_witness :
    Char.ofNat 0 ∉ "Quit".data
    ∧ showMessageBox "Quit" "Sure?" true "Yes" false true ""
      = GUIManager.GuiCall.MessageBox_Show ⟨"Quit", "Sure?", false, some "Yes", some "~2~"⟩ :=
  ⟨by decide,
   ((showMessageBox_sanitizes_buttons "Quit" "Sure?" "Yes" "" true false true).2.1
      (by decide) (by decide) (by decide) (by decide)).trans (by decide)⟩

end GameScript

end RoR
